import Mathlib

/-!
Verification of the Mode S / ADS-B decoder `dump1090.c` against its
natural-language specification.

This file contains a shallow embedding of the decoder's core data model and
operations, translated function-by-function from `src/dump1090.c`:

* the 24-bit Mode S CRC engine (`modesChecksum`, `fixSingleBitErrors`,
  `fixTwoBitsErrors`), source lines 583-699;
* the ICAO recency cache (`ICAOCacheHashAddress`, `addRecentlySeenICAOAddr`,
  `ICAOAddressWasRecentlySeen`), lines 701-730;
* the AP brute-force address recovery (`bruteForceAP`), lines 747-787;
* the frame decoder (`decodeModesMessage` with its altitude, squawk,
  identification, position and velocity field extractors), lines 789-1076;
* the CPR global position resolver (`cprModFunction`, `cprNLFunction`,
  `decodeCPR`) and the tracker's position update, lines 1303-1497;
* the hex-line parser and network read loop (`hexToBin`,
  `decodeHexMessage`, `modesReadFromClient`), lines 1807-2098.

Machine integers are modelled as `Nat`/`Int` with explicit truncation
(`% 2^32`) where C unsigned overflow matters.  C `double` arithmetic in the
CPR resolver is modelled over `Rat`; the inputs are 17-bit integers and the
computations at issue (which branch runs, which packet is chosen) depend only
on exact comparisons that `Rat` reproduces.  The `(int)sqrt(double)` cast in
the velocity decoder is modelled as `Nat.sqrt` (floor of the square root),
which is exact for the 10-bit velocity components involved: IEEE sqrt is
correctly rounded and `sqrt(n)` for `n ≤ 2*1023^2` is never within a double
ulp of an integer unless `n` is a perfect square.
-/

/-! ## CRC engine (dump1090.c lines 583-699) -/

/-- The 112-entry Mode S parity table, `modes_checksum_table` at line 583. -/
def modes_checksum_table : List Nat := [
  0x3935ea, 0x1c9af5, 0xf1b77e, 0x78dbbf, 0xc397db, 0x9e31e9, 0xb0e2f0, 0x587178,
  0x2c38bc, 0x161c5e, 0x0b0e2f, 0xfa7d13, 0x82c48d, 0xbe9842, 0x5f4c21, 0xd05c14,
  0x682e0a, 0x341705, 0xe5f186, 0x72f8c3, 0xc68665, 0x9cb936, 0x4e5c9b, 0xd8d449,
  0x939020, 0x49c810, 0x24e408, 0x127204, 0x093902, 0x049c81, 0xfdb444, 0x7eda22,
  0x3f6d11, 0xe04c8c, 0x702646, 0x381323, 0xe3f395, 0x8e03ce, 0x4701e7, 0xdc7af7,
  0x91c77f, 0xb719bb, 0xa476d9, 0xadc168, 0x56e0b4, 0x2b705a, 0x15b82d, 0xf52612,
  0x7a9309, 0xc2b380, 0x6159c0, 0x30ace0, 0x185670, 0x0c2b38, 0x06159c, 0x030ace,
  0x018567, 0xff38b7, 0x80665f, 0xbfc92b, 0xa01e91, 0xaff54c, 0x57faa6, 0x2bfd53,
  0xea04ad, 0x8af852, 0x457c29, 0xdd4410, 0x6ea208, 0x375104, 0x1ba882, 0x0dd441,
  0xf91024, 0x7c8812, 0x3e4409, 0xe0d800, 0x706c00, 0x383600, 0x1c1b00, 0x0e0d80,
  0x0706c0, 0x038360, 0x01c1b0, 0x00e0d8, 0x00706c, 0x003836, 0x001c1b, 0xfff409,
  0x000000, 0x000000, 0x000000, 0x000000, 0x000000, 0x000000, 0x000000, 0x000000,
  0x000000, 0x000000, 0x000000, 0x000000, 0x000000, 0x000000, 0x000000, 0x000000,
  0x000000, 0x000000, 0x000000, 0x000000, 0x000000, 0x000000, 0x000000, 0x000000]

/-- Table access, as the C array read `modes_checksum_table[i]`. -/
def tableAt (i : Nat) : Nat := modes_checksum_table.getD i 0

/-- The test `msg[j/8] & (1 << (7-j%8))` of line 611, as a Bool. -/
def msgBit (msg : List Nat) (j : Nat) : Bool :=
  (msg.getD (j / 8) 0) &&& (1 <<< (7 - j % 8)) != 0

/-- `modesChecksum` (line 600): xor the table entries of the set bits,
starting at table offset `112 - bits` for short messages. -/
def modesChecksum (msg : List Nat) (bits : Nat) : Nat :=
  let offset := if bits = 112 then 0 else 112 - 56
  (List.range bits).foldl
    (fun crc j => if msgBit msg j then crc ^^^ tableAt (j + offset) else crc) 0

/-- The observed CRC: the last three bytes of the frame, big-endian
(`crc1` at lines 643-645 and `mm->crc` at lines 908-910). -/
def storedCRC (msg : List Nat) (bits : Nat) : Nat :=
  ((msg.getD (bits / 8 - 3) 0) <<< 16) |||
  ((msg.getD (bits / 8 - 2) 0) <<< 8) |||
  (msg.getD (bits / 8 - 1) 0)

/-- `aux[byte] ^= bitmask` (line 641): flip message bit `j`. -/
def flipBit (msg : List Nat) (j : Nat) : List Nat :=
  msg.set (j / 8) ((msg.getD (j / 8) 0) ^^^ (1 <<< (7 - j % 8)))

/-- `fixSingleBitErrors` (line 631): for each bit position in order, flip it
in a scratch copy of the first `bits/8` bytes and accept the first position
whose recomputed CRC equals the CRC stored in the scratch copy's trailing
bytes.  Returns the bit index and the repaired buffer, or `none` for `-1`. -/
def fixSingleBitErrors (msg : List Nat) (bits : Nat) : Option (Nat × List Nat) :=
  (List.range bits).findSome? fun j =>
    let aux := flipBit (msg.take (bits / 8)) j
    if storedCRC aux bits = modesChecksum aux bits then
      some (j, aux ++ msg.drop (bits / 8))
    else none

/-- `fixTwoBitsErrors` (line 662): try every ordered pair `(j, i)` with
`i > j`; on success return `j | (i <<< 8)` and the repaired buffer. -/
def fixTwoBitsErrors (msg : List Nat) (bits : Nat) : Option (Nat × List Nat) :=
  (List.range bits).findSome? fun j =>
    (List.range' (j + 1) (bits - (j + 1))).findSome? fun i =>
      let aux := flipBit (flipBit (msg.take (bits / 8)) j) i
      if storedCRC aux bits = modesChecksum aux bits then
        some (j ||| (i <<< 8), aux ++ msg.drop (bits / 8))
      else none

/-- `modesMessageLenByType` (line 619). -/
def modesMessageLenByType (type : Nat) : Nat :=
  if type = 16 ∨ type = 17 ∨ type = 19 ∨ type = 20 ∨ type = 21 then 112 else 56

/-! ## ICAO recency cache (lines 701-730)

The cache is the `uint32_t icao_cache[2*1024]` array, modelled as a function
from array index to stored 32-bit value (all zero initially). -/

def MODES_ICAO_CACHE_LEN : Nat := 1024

def MODES_ICAO_CACHE_TTL : Nat := 60

/-- `ICAOCacheHashAddress` (line 703); the multiplications wrap at 2^32. -/
def ICAOCacheHashAddress (a : Nat) : Nat :=
  let a1 := (((a >>> 16) ^^^ a) * 0x45d9f3b) % 2 ^ 32
  let a2 := (((a1 >>> 16) ^^^ a1) * 0x45d9f3b) % 2 ^ 32
  let a3 := (a2 >>> 16) ^^^ a2
  a3 &&& (MODES_ICAO_CACHE_LEN - 1)

/-- The `Modes.icao_cache` array: index `2*h` holds an address, `2*h+1` a
timestamp. -/
def IcaoCache : Type := Nat → Nat

/-- The all-zero cache (`modesInit` zeroes the array). -/
def emptyIcaoCache : IcaoCache := fun _ => 0

/-- `addRecentlySeenICAOAddr` (line 715): write `{addr, now}` into the slot
indexed by the hash; the timestamp is truncated to 32 bits as by the
`(uint32_t) time(NULL)` cast. -/
def addRecentlySeenICAOAddr (cache : IcaoCache) (addr now : Nat) : IcaoCache :=
  let h := ICAOCacheHashAddress addr
  fun i => if i = h * 2 then addr else if i = h * 2 + 1 then now % 2 ^ 32 else cache i

/-- `ICAOAddressWasRecentlySeen` (line 724): the C test
`a && a == addr && time(NULL)-t <= MODES_ICAO_CACHE_TTL` (the subtraction is
performed in signed `time_t` arithmetic). -/
def ICAOAddressWasRecentlySeen (cache : IcaoCache) (addr now : Nat) : Bool :=
  let h := ICAOCacheHashAddress addr
  let a := cache (h * 2)
  let t := cache (h * 2 + 1)
  a != 0 && a == addr && (now : Int) - (t : Int) ≤ (MODES_ICAO_CACHE_TTL : Int)

/-! ## AP brute force and field decoders (lines 747-890) -/

/-- `bruteForceAP` (line 747): for the reply DFs, xor the computed CRC into
the trailing three bytes to recover the candidate address and accept it when
it is fresh in the recency cache.  Returns `(aa1, aa2, aa3)` on success. -/
def bruteForceAP (cache : IcaoCache) (now : Nat) (msgtype msgbits : Nat)
    (msg : List Nat) : Option (Nat × Nat × Nat) :=
  if msgtype = 0 ∨ msgtype = 4 ∨ msgtype = 5 ∨ msgtype = 16 ∨
     msgtype = 20 ∨ msgtype = 21 ∨ msgtype = 24 then
    let lastbyte := msgbits / 8 - 1
    let crc := modesChecksum msg msgbits
    let b0 := (msg.getD lastbyte 0) ^^^ (crc &&& 0xff)
    let b1 := (msg.getD (lastbyte - 1) 0) ^^^ ((crc >>> 8) &&& 0xff)
    let b2 := (msg.getD (lastbyte - 2) 0) ^^^ ((crc >>> 16) &&& 0xff)
    let addr := b0 ||| (b1 <<< 8) ||| (b2 <<< 16)
    if ICAOAddressWasRecentlySeen cache addr now then some (b2, b1, b0) else none
  else none

def MODES_UNIT_FEET : Nat := 0

def MODES_UNIT_METERS : Nat := 1

/-- `decodeAC13Field` (line 792): 13-bit altitude; returns the altitude and
the unit. -/
def decodeAC13Field (msg : List Nat) : Int × Nat :=
  let m_bit := (msg.getD 3 0) &&& (1 <<< 6)
  let q_bit := (msg.getD 3 0) &&& (1 <<< 4)
  if m_bit = 0 then
    if q_bit ≠ 0 then
      let n := (((msg.getD 2 0) &&& 31) <<< 6) |||
               (((msg.getD 3 0) &&& 0x80) >>> 2) |||
               (((msg.getD 3 0) &&& 0x20) >>> 1) |||
               ((msg.getD 3 0) &&& 15)
      ((n : Int) * 25 - 1000, MODES_UNIT_FEET)
    else (0, MODES_UNIT_FEET)
  else (0, MODES_UNIT_METERS)

/-- `decodeAC12Field` (line 820): 12-bit altitude.  The C function leaves
`*unit` untouched when the Q bit is clear, so the previous unit value is
threaded through. -/
def decodeAC12Field (msg : List Nat) (unit0 : Nat) : Int × Nat :=
  let q_bit := (msg.getD 5 0) &&& 1
  if q_bit ≠ 0 then
    let n := (((msg.getD 5 0) >>> 1) <<< 4) ||| (((msg.getD 6 0) &&& 0xF0) >>> 4)
    ((n : Int) * 25 - 1000, MODES_UNIT_FEET)
  else (0, unit0)

/-- The squawk (identity) gather of lines 965-981, as a function of bytes 2
and 3 of the message. -/
def decodeSquawk (b2 b3 : Nat) : Nat :=
  let a := ((b3 &&& 0x80) >>> 5) ||| (b2 &&& 0x02) ||| ((b2 &&& 0x08) >>> 3)
  let b := ((b3 &&& 0x02) <<< 1) ||| ((b3 &&& 0x08) >>> 2) ||| ((b3 &&& 0x20) >>> 5)
  let c := ((b2 &&& 0x01) <<< 2) ||| ((b2 &&& 0x04) >>> 1) ||| ((b2 &&& 0x10) >>> 4)
  let d := ((b3 &&& 0x01) <<< 2) ||| ((b3 &&& 0x04) >>> 1) ||| ((b3 &&& 0x10) >>> 4)
  a * 1000 + b * 100 + c * 10 + d

/-- The AIS charset of line 897. -/
def ais_charset : List Char :=
  "?ABCDEFGHIJKLMNOPQRSTUVWXYZ????? ???????????????0123456789??????".toList

def aisChar (i : Nat) : Char := ais_charset.getD i '?'

/-! ## Frame decoder (lines 892-1076)

The decoder is split into the same stages as the C function: the CRC
check/repair block (lines 907-930), the AP / recency-cache block (lines
983-1003) and the per-DF field extraction.  The `heading` field computed
with `atan2` (lines 1052-1071) is floating point and not needed by any
claim, so it is not modelled. -/

/-- The configuration flags of the global `Modes` record that
`decodeModesMessage` reads. -/
structure Config where
  fix_errors : Bool
  aggressive : Bool
  check_crc : Bool

/-- Default flags set by `modesInitConfig` (line 282). -/
def defaultConfig : Config := { fix_errors := true, aggressive := false, check_crc := true }

/-- The fields of `struct modesMessage` (line 187) that the embedding
models.  Fields the C code leaves uninitialized on a given path are `0`
(respectively `false`, `[]`) here. -/
structure ModesMessage where
  msg : List Nat := []
  msgbits : Nat := 0
  msgtype : Nat := 0
  crcok : Bool := false
  crc : Nat := 0
  errorbit : Int := -1
  aa1 : Nat := 0
  aa2 : Nat := 0
  aa3 : Nat := 0
  ca : Nat := 0
  metype : Nat := 0
  mesub : Nat := 0
  aircraft_type : Nat := 0
  fflag : Bool := false
  tflag : Bool := false
  raw_latitude : Nat := 0
  raw_longitude : Nat := 0
  flight : List Char := []
  ew_dir : Nat := 0
  ew_velocity : Nat := 0
  ns_dir : Nat := 0
  ns_velocity : Nat := 0
  vert_rate_source : Nat := 0
  vert_rate_sign : Nat := 0
  vert_rate : Nat := 0
  velocity : Nat := 0
  fs : Nat := 0
  dr : Nat := 0
  um : Nat := 0
  identity : Nat := 0
  altitude : Int := 0
  unit : Nat := 0
  deriving DecidableEq

/-- The CRC check and repair block of `decodeModesMessage`, lines 907-930.
Returns the (possibly repaired) message bytes, `mm->crc`, `mm->crcok` and
`mm->errorbit`. -/
def decodeCRCStage (cfg : Config) (msgIn : List Nat) (msgtype msgbits : Nat) :
    List Nat × Nat × Bool × Int :=
  let crcStored := storedCRC msgIn msgbits
  let crc2 := modesChecksum msgIn msgbits
  let crcok := crcStored = crc2
  if ¬crcok ∧ cfg.fix_errors ∧ (msgtype = 11 ∨ msgtype = 17) then
    match fixSingleBitErrors msgIn msgbits with
    | some (j, fixed) => (fixed, modesChecksum fixed msgbits, true, (j : Int))
    | none =>
      if cfg.aggressive ∧ msgtype = 17 then
        match fixTwoBitsErrors msgIn msgbits with
        | some (ji, fixed) => (fixed, modesChecksum fixed msgbits, true, (ji : Int))
        | none => (msgIn, crcStored, false, -1)
      else (msgIn, crcStored, false, -1)
  else (msgIn, crcStored, if crcok then true else false, -1)

/-- The AP / recency-cache block, lines 983-1003: for non-DF11/17 frames
attempt AP recovery (overwriting `crcok` and the address bytes); for
DF11/17 frames insert the address into the cache when `crcok` holds and no
bit was corrected.  Returns the final `crcok`, the address bytes, and the
address passed to `addRecentlySeenICAOAddr` (`none` when it is not called). -/
def apStage (cache : IcaoCache) (now : Nat) (msgtype msgbits : Nat)
    (msg : List Nat) (crcok : Bool) (errorbit : Int) :
    Bool × (Nat × Nat × Nat) × Option Nat :=
  let aa1 := msg.getD 1 0
  let aa2 := msg.getD 2 0
  let aa3 := msg.getD 3 0
  if msgtype ≠ 11 ∧ msgtype ≠ 17 then
    match bruteForceAP cache now msgtype msgbits msg with
    | some (a1, a2, a3) => (true, (a1, a2, a3), none)
    | none => (false, (aa1, aa2, aa3), none)
  else
    (crcok, (aa1, aa2, aa3),
     if crcok ∧ errorbit = -1 then some ((aa1 <<< 16) ||| (aa2 <<< 8) ||| aa3)
     else none)

/-- The DF17 extended-squitter identification field, lines 1018-1026. -/
def decodeFlight (msg : List Nat) : List Char :=
  [aisChar ((msg.getD 5 0) >>> 2),
   aisChar ((((msg.getD 5 0) &&& 3) <<< 4) ||| ((msg.getD 6 0) >>> 4)),
   aisChar ((((msg.getD 6 0) &&& 15) <<< 2) ||| ((msg.getD 7 0) >>> 6)),
   aisChar ((msg.getD 7 0) &&& 63),
   aisChar ((msg.getD 8 0) >>> 2),
   aisChar ((((msg.getD 8 0) &&& 3) <<< 4) ||| ((msg.getD 9 0) >>> 4)),
   aisChar ((((msg.getD 9 0) &&& 15) <<< 2) ||| ((msg.getD 10 0) >>> 6)),
   aisChar ((msg.getD 10 0) &&& 63)]

/-- `decodeModesMessage` (line 895), assembled from the stages above.
Besides the decoded message it returns the address inserted into the
recency cache by line 1001, or `none` when no insertion happens; the
caller-side cache update is `decodeModesMessageCache` below. -/
def decodeModesMessage (cfg : Config) (cache : IcaoCache) (now : Nat)
    (msgIn : List Nat) : ModesMessage × Option Nat :=
  let msgtype := (msgIn.getD 0 0) >>> 3
  let msgbits := modesMessageLenByType msgtype
  let st := decodeCRCStage cfg msgIn msgtype msgbits
  let msg := st.1
  let crc := st.2.1
  let crcok0 := st.2.2.1
  let errorbit := st.2.2.2
  let ap := apStage cache now msgtype msgbits msg crcok0 errorbit
  let crcok := ap.1
  let aa := ap.2.1
  let inserted := ap.2.2
  let metype := (msg.getD 4 0) >>> 3
  let mesub := (msg.getD 4 0) &&& 7
  let identity := decodeSquawk (msg.getD 2 0) (msg.getD 3 0)
  let base : ModesMessage :=
    { msg := msg, msgbits := msgbits, msgtype := msgtype,
      crcok := crcok, crc := crc, errorbit := errorbit,
      aa1 := aa.1, aa2 := aa.2.1, aa3 := aa.2.2,
      ca := (msg.getD 0 0) &&& 7,
      metype := metype, mesub := mesub,
      fs := (msg.getD 0 0) &&& 7,
      dr := ((msg.getD 1 0) >>> 3) &&& 31,
      um := (((msg.getD 1 0) &&& 7) <<< 3) ||| ((msg.getD 2 0) >>> 5),
      identity := identity }
  let base :=
    if msgtype = 0 ∨ msgtype = 4 ∨ msgtype = 16 ∨ msgtype = 20 then
      let au := decodeAC13Field msg
      { base with altitude := au.1, unit := au.2 }
    else base
  let mm :=
    if msgtype = 17 then
      if 1 ≤ metype ∧ metype ≤ 4 then
        { base with aircraft_type := metype - 1, flight := decodeFlight msg }
      else if 9 ≤ metype ∧ metype ≤ 18 then
        let au := decodeAC12Field msg base.unit
        { base with
          fflag := ((msg.getD 6 0) &&& (1 <<< 2)) != 0,
          tflag := ((msg.getD 6 0) &&& (1 <<< 3)) != 0,
          altitude := au.1, unit := au.2,
          raw_latitude := (((msg.getD 6 0) &&& 3) <<< 15) |||
                          ((msg.getD 7 0) <<< 7) ||| ((msg.getD 8 0) >>> 1),
          raw_longitude := (((msg.getD 8 0) &&& 1) <<< 16) |||
                           ((msg.getD 9 0) <<< 8) ||| (msg.getD 10 0) }
      else if metype = 19 ∧ 1 ≤ mesub ∧ mesub ≤ 4 then
        if mesub = 1 ∨ mesub = 2 then
          let ew_velocity := (((msg.getD 5 0) &&& 3) <<< 8) ||| (msg.getD 6 0)
          let ns_velocity := (((msg.getD 7 0) &&& 0x7f) <<< 3) |||
                             (((msg.getD 8 0) &&& 0xe0) >>> 5)
          { base with
            ew_dir := ((msg.getD 5 0) &&& 4) >>> 2,
            ew_velocity := ew_velocity,
            ns_dir := ((msg.getD 7 0) &&& 0x80) >>> 7,
            ns_velocity := ns_velocity,
            vert_rate_source := ((msg.getD 8 0) &&& 0x10) >>> 4,
            vert_rate_sign := ((msg.getD 8 0) &&& 0x8) >>> 3,
            vert_rate := (((msg.getD 8 0) &&& 7) <<< 6) ||| (((msg.getD 9 0) &&& 0xfc) >>> 2),
            velocity := Nat.sqrt (ns_velocity * ns_velocity + ew_velocity * ew_velocity) }
        else base
      else base
    else base
  (mm, inserted)

/-- The recency cache after `decodeModesMessage` runs. -/
def decodeModesMessageCache (cfg : Config) (cache : IcaoCache) (now : Nat)
    (msgIn : List Nat) : IcaoCache :=
  match (decodeModesMessage cfg cache now msgIn).2 with
  | some addr => addRecentlySeenICAOAddr cache addr now
  | none => cache

/-! ## Hex line parser (lines 1807-1866) -/

/-- `hexDigitVal` (line 1809). -/
def hexDigitVal (ch : Char) : Int :=
  let c := ch.toLower
  if '0' ≤ c ∧ c ≤ '9' then (c.toNat : Int) - ('0'.toNat : Int)
  else if 'a' ≤ c ∧ c ≤ 'f' then (c.toNat : Int) - ('a'.toNat : Int) + 10
  else -1

/-- C `isspace`. -/
def isSpaceC (c : Char) : Bool :=
  c = ' ' ∨ c = '\t' ∨ c = '\n' ∨ c = '\x0b' ∨ c = '\x0c' ∨ c = '\r'

/-- The digit-pair loop of `hexToBin` (lines 1838-1844).  `chars` is the
text after the leading `*` (so `chars.getD len` is the trailing `;`, read
by the final iteration when the digit count is odd); bytes already decoded
are written into `msg` even when a later pair fails, exactly as the C loop
partially fills the caller's buffer before returning.  The fuel argument
only bounds the iteration count (the callers pass `len + 1`, always
enough since `j` advances by 2 per step). -/
def hexToBinLoop : Nat → List Char → Nat → Nat → List Nat → List Nat × Int
  | 0, _, _, _, msg => (msg, 0)
  | fuel + 1, chars, len, j, msg =>
    if j < len then
      let high := hexDigitVal (chars.getD j ' ')
      let low := hexDigitVal (chars.getD (j + 1) ' ')
      if high = -1 ∨ low = -1 then (msg, 0)
      else hexToBinLoop fuel chars len (j + 2) (msg.set (j / 2) ((high.toNat <<< 4) ||| low.toNat))
    else (msg, 0)

/-- `hexToBin` (line 1821).  Takes the line and the caller's message buffer;
returns the buffer (written as far as the C function writes it) and the C
return value.  Note the C function returns 0 on success AND on every
failure path, and leaves the buffer untouched on the early failure paths. -/
def hexToBin (hex : List Char) (msg : List Nat) : List Nat × Int :=
  let t := (((hex.reverse.dropWhile isSpaceC).reverse).dropWhile isSpaceC)
  let l := t.length
  if l < 2 ∨ t.getD 0 ' ' ≠ '*' ∨ t.getD (l - 1) ' ' ≠ ';' then (msg, 0)
  else
    let body := t.drop 1
    let blen := l - 2
    if blen > 14 * 2 then (msg, 0)
    else hexToBinLoop (blen + 1) body blen 0 msg

/-- `decodeHexMessage` (line 1858): parse the client buffer as a hex line
and decode it.  The C function ignores `hexToBin`'s return value (which is
always 0) and unconditionally feeds the message buffer to
`decodeModesMessage` and then `useModesMessage`; `stale` is whatever the
uninitialized `msg[MODES_LONG_MSG_BYTES]` stack array happened to hold. -/
def decodeHexMessage (cfg : Config) (cache : IcaoCache) (now : Nat)
    (hex : List Char) (stale : List Nat) : ModesMessage × Option Nat :=
  let mb := hexToBin hex stale
  decodeModesMessage cfg cache now mb.1

/-! ## CPR resolver (lines 1303-1430) and tracker position update

C `double` arithmetic is modelled over `Rat`: every intermediate quantity
here is rational, and the claims considered concern only the control flow
(which guard fires, which packet is selected), not the rounding of the
final coordinates. -/

/-- `struct aircraft` (line 105), the fields used by the position pipeline. -/
structure Aircraft where
  addr : Nat := 0
  flight : List Char := []
  altitude : Int := 0
  speed : Nat := 0
  track : Int := 0
  seen : Nat := 0
  messages : Nat := 0
  odd_cprlat : Nat := 0
  odd_cprlon : Nat := 0
  even_cprlat : Nat := 0
  even_cprlon : Nat := 0
  lat : Rat := 0
  lon : Rat := 0
  odd_cprtime : Int := 0
  even_cprtime : Int := 0
  deriving DecidableEq

/-- `cprModFunction` (line 1304): the C `%` truncates toward zero, then the
negative case is shifted up. -/
def cprModFunction (a b : Int) : Int :=
  let res := Int.tmod a b
  if res < 0 then res + b else res

/-- `cprNLFunction` (line 1311): the precomputed NL staircase. -/
def cprNLFunction (lat0 : Rat) : Nat :=
  let lat := if lat0 < 0 then -lat0 else lat0
  if lat < 10.47047130 then 59 else
  if lat < 14.82817437 then 58 else
  if lat < 18.18626357 then 57 else
  if lat < 21.02939493 then 56 else
  if lat < 23.54504487 then 55 else
  if lat < 25.82924707 then 54 else
  if lat < 27.93898710 then 53 else
  if lat < 29.91135686 then 52 else
  if lat < 31.77209708 then 51 else
  if lat < 33.53993436 then 50 else
  if lat < 35.22899598 then 49 else
  if lat < 36.85025108 then 48 else
  if lat < 38.41241892 then 47 else
  if lat < 39.92256684 then 46 else
  if lat < 41.38651832 then 45 else
  if lat < 42.80914012 then 44 else
  if lat < 44.19454951 then 43 else
  if lat < 45.54626723 then 42 else
  if lat < 46.86733252 then 41 else
  if lat < 48.16039128 then 40 else
  if lat < 49.42776439 then 39 else
  if lat < 50.67150166 then 38 else
  if lat < 51.89342469 then 37 else
  if lat < 53.09516153 then 36 else
  if lat < 54.27817472 then 35 else
  if lat < 55.44378444 then 34 else
  if lat < 56.59318756 then 33 else
  if lat < 57.72747354 then 32 else
  if lat < 58.84763776 then 31 else
  if lat < 59.95459277 then 30 else
  if lat < 61.04917774 then 29 else
  if lat < 62.13216659 then 28 else
  if lat < 63.20427479 then 27 else
  if lat < 64.26616523 then 26 else
  if lat < 65.31845310 then 25 else
  if lat < 66.36171008 then 24 else
  if lat < 67.39646774 then 23 else
  if lat < 68.42322022 then 22 else
  if lat < 69.44242631 then 21 else
  if lat < 70.45451075 then 20 else
  if lat < 71.45986473 then 19 else
  if lat < 72.45884545 then 18 else
  if lat < 73.45177442 then 17 else
  if lat < 74.43893416 then 16 else
  if lat < 75.42056257 then 15 else
  if lat < 76.39684391 then 14 else
  if lat < 77.36789461 then 13 else
  if lat < 78.33374083 then 12 else
  if lat < 79.29428225 then 11 else
  if lat < 80.24923213 then 10 else
  if lat < 81.19801349 then 9 else
  if lat < 82.13956981 then 8 else
  if lat < 83.07199445 then 7 else
  if lat < 83.99173563 then 6 else
  if lat < 84.89166191 then 5 else
  if lat < 85.75541621 then 4 else
  if lat < 86.53536998 then 3 else
  if lat < 87.00000000 then 2 else 1

/-- `cprNFunction` (line 1374). -/
def cprNFunction (lat : Rat) (isodd : Nat) : Int :=
  let nl : Int := (cprNLFunction lat : Int) - (isodd : Int)
  if nl < 1 then 1 else nl

/-- `cprDlonFunction` (line 1380). -/
def cprDlonFunction (lat : Rat) (isodd : Nat) : Rat :=
  360 / (cprNFunction lat isodd : Rat)

/-- The latitude index `j` of line 1403. -/
def cprJ (a : Aircraft) : Int :=
  ⌊(59 * (a.even_cprlat : Rat) - 60 * (a.odd_cprlat : Rat)) / 131072 + 1 / 2⌋

/-- `rlat0` of lines 1404 and 1407 (even latitude, renormalized). -/
def cprRlat0 (a : Aircraft) : Rat :=
  let r := (360 / 60 : Rat) * ((cprModFunction (cprJ a) 60 : Rat) + (a.even_cprlat : Rat) / 131072)
  if r ≥ 270 then r - 360 else r

/-- `rlat1` of lines 1405 and 1408 (odd latitude, renormalized). -/
def cprRlat1 (a : Aircraft) : Rat :=
  let r := (360 / 59 : Rat) * ((cprModFunction (cprJ a) 59 : Rat) + (a.odd_cprlat : Rat) / 131072)
  if r ≥ 270 then r - 360 else r

/-- The longitude produced by the even branch, lines 1416-1419, with the
final `> 180` wrap of line 1429. -/
def cprLonEven (a : Aircraft) : Rat :=
  let ni := cprNFunction (cprRlat0 a) 0
  let m := ⌊(((a.even_cprlon : Rat) * ((cprNLFunction (cprRlat0 a) : Rat) - 1) -
      (a.odd_cprlon : Rat) * (cprNLFunction (cprRlat0 a) : Rat)) / 131072) + 1 / 2⌋
  let lon := cprDlonFunction (cprRlat0 a) 0 *
      ((cprModFunction m ni : Rat) + (a.even_cprlon : Rat) / 131072)
  if lon > 180 then lon - 360 else lon

/-- The longitude produced by the odd branch, lines 1423-1426, with the
final `> 180` wrap of line 1429. -/
def cprLonOdd (a : Aircraft) : Rat :=
  let ni := cprNFunction (cprRlat1 a) 1
  let m := ⌊(((a.even_cprlon : Rat) * ((cprNLFunction (cprRlat1 a) : Rat) - 1) -
      (a.odd_cprlon : Rat) * (cprNLFunction (cprRlat1 a) : Rat)) / 131072) + 1 / 2⌋
  let lon := cprDlonFunction (cprRlat1 a) 1 *
      ((cprModFunction m ni : Rat) + (a.odd_cprlon : Rat) / 131072)
  if lon > 180 then lon - 360 else lon

/-- `decodeCPR` (line 1394): abort when the two latitudes disagree on NL;
otherwise resolve from the even packet when it is strictly newer, else from
the odd packet. -/
def decodeCPR (a : Aircraft) : Aircraft :=
  if cprNLFunction (cprRlat0 a) ≠ cprNLFunction (cprRlat1 a) then a
  else if a.even_cprtime > a.odd_cprtime then
    { a with lon := cprLonEven a, lat := cprRlat0 a }
  else
    { a with lon := cprLonOdd a, lat := cprRlat1 a }

/-- The snapshot store of `interactiveReceiveData` lines 1474-1483: record
the altitude and the odd or even raw CPR pair with the capture time. -/
def storeCprSnapshot (a : Aircraft) (mm : ModesMessage) (nowMs : Int) : Aircraft :=
  let a := { a with altitude := mm.altitude }
  if mm.fflag then
    { a with odd_cprlat := mm.raw_latitude, odd_cprlon := mm.raw_longitude,
             odd_cprtime := nowMs }
  else
    { a with even_cprlat := mm.raw_latitude, even_cprlon := mm.raw_longitude,
             even_cprtime := nowMs }

/-- The DF17 airborne-position update of `interactiveReceiveData`, lines
1473-1488: store the snapshot, then run the CPR resolver when the two
capture times are within 10,000 ms of each other. -/
def trackPosition (a : Aircraft) (mm : ModesMessage) (nowMs : Int) : Aircraft :=
  let a1 := storeCprSnapshot a mm nowMs
  if (a1.even_cprtime - a1.odd_cprtime).natAbs ≤ 10000 then decodeCPR a1 else a1

/-! ## Network read loop (lines 2029-2083)

`modesReadFromClient` is modelled as a function of the client's current
buffer and a trace of `read()` results.  The buffer holds raw bytes;
`none` as a result means the client was destroyed (`modesFreeClient`),
`some buf` that the loop exited with the client alive and `buf` buffered. -/

def MODES_CLIENT_BUF_SIZE : Nat := 1024

/-- One result of the non-blocking `read()` call at line 2034. -/
inductive ReadEvent where
  | eof
  | errOther
  | errAgain
  | bytes (data : List Nat)

/-- Does `sep` occur in `buf` starting at position `i`? -/
def sepAt (buf sep : List Nat) (i : Nat) : Bool :=
  sep.isPrefixOf (buf.drop i)

/-- The `strstr(c->buf, sep)` of line 2054: index of the first occurrence. -/
def firstSepIdx (buf sep : List Nat) : Option Nat :=
  (List.range buf.length).find? (sepAt buf sep)

/-- The message-extraction loop of lines 2054-2071: while the separator
occurs, hand the part before it to the handler (which returns `true` to ask
for the client to be destroyed) and drop it together with the separator.
Returns `none` when the handler closed the client, otherwise the remaining
buffer and the `fullmsg` flag.  `fuel` bounds the iteration count; the
callers pass `buf.length + 1`, enough for any nonempty separator. -/
def extractMessages (fuel : Nat) (buf sep : List Nat) (handler : List Nat → Bool)
    (fullmsg : Bool) : Option (List Nat × Bool) :=
  match fuel with
  | 0 => some (buf, fullmsg)
  | fuel + 1 =>
    match firstSepIdx buf sep with
    | none => some (buf, fullmsg)
    | some i =>
      if handler (buf.take i) then none
      else extractMessages fuel (buf.drop (i + sep.length)) sep handler true

/-- `modesReadFromClient` (line 2029).  Each `bytes` event appends at most
`MODES_CLIENT_BUF_SIZE - buflen` bytes (the `left` bound of line 2033);
after extraction, a full buffer with no separator is discarded and reading
continues (lines 2074-2078), otherwise the loop reads again only when at
least one full message was seen (line 2081). -/
def modesReadFromClient (buf sep : List Nat) (handler : List Nat → Bool) :
    List ReadEvent → Option (List Nat)
  | [] => some buf
  | ev :: rest =>
    match ev with
    | .eof => none
    | .errOther => none
    | .errAgain => some buf
    | .bytes data =>
      let data := data.take (MODES_CLIENT_BUF_SIZE - buf.length)
      let buf1 := buf ++ data
      match extractMessages (buf1.length + 1) buf1 sep handler false with
      | none => none
      | some (buf2, fullmsg) =>
        if buf2.length = MODES_CLIENT_BUF_SIZE then
          modesReadFromClient [] sep handler rest
        else if fullmsg then
          modesReadFromClient buf2 sep handler rest
        else some buf2

/-! ## Definition taken from the specification (claim C7)

The spec states the derived ground speed is `round(sqrt(ew^2 + ns^2))`,
the NEAREST integer to the Euclidean norm.  `specRoundSqrt n` is that
rounding of `sqrt n`: one more than `Nat.sqrt n` exactly when the
fractional part of `sqrt n` is at least one half, i.e. when
`(2*Nat.sqrt n + 1)^2 ≤ 4*n`. -/
def specRoundSqrt (n : Nat) : Nat :=
  let f := Nat.sqrt n
  if (2 * f + 1) ^ 2 ≤ 4 * n then f + 1 else f

/-! ## Projection lemmas for the decoder -/

theorem decodeModesMessage_msgbits (cfg : Config) (cache : IcaoCache) (now : Nat)
    (msgIn : List Nat) :
    ((decodeModesMessage cfg cache now msgIn).1).msgbits =
      modesMessageLenByType ((msgIn.getD 0 0) >>> 3) := by
  unfold decodeModesMessage
  dsimp only
  repeat' split
  all_goals rfl

theorem decodeModesMessage_msgtype (cfg : Config) (cache : IcaoCache) (now : Nat)
    (msgIn : List Nat) :
    ((decodeModesMessage cfg cache now msgIn).1).msgtype = (msgIn.getD 0 0) >>> 3 := by
  unfold decodeModesMessage
  dsimp only
  repeat' split
  all_goals rfl

theorem decodeModesMessage_crcok (cfg : Config) (cache : IcaoCache) (now : Nat)
    (msgIn : List Nat) :
    ((decodeModesMessage cfg cache now msgIn).1).crcok =
      (apStage cache now ((msgIn.getD 0 0) >>> 3)
        (modesMessageLenByType ((msgIn.getD 0 0) >>> 3))
        (decodeCRCStage cfg msgIn ((msgIn.getD 0 0) >>> 3)
          (modesMessageLenByType ((msgIn.getD 0 0) >>> 3))).1
        (decodeCRCStage cfg msgIn ((msgIn.getD 0 0) >>> 3)
          (modesMessageLenByType ((msgIn.getD 0 0) >>> 3))).2.2.1
        (decodeCRCStage cfg msgIn ((msgIn.getD 0 0) >>> 3)
          (modesMessageLenByType ((msgIn.getD 0 0) >>> 3))).2.2.2).1 := by
  unfold decodeModesMessage
  dsimp only
  repeat' split
  all_goals rfl

theorem decodeModesMessage_errorbit (cfg : Config) (cache : IcaoCache) (now : Nat)
    (msgIn : List Nat) :
    ((decodeModesMessage cfg cache now msgIn).1).errorbit =
      (decodeCRCStage cfg msgIn ((msgIn.getD 0 0) >>> 3)
        (modesMessageLenByType ((msgIn.getD 0 0) >>> 3))).2.2.2 := by
  unfold decodeModesMessage
  dsimp only
  repeat' split
  all_goals rfl

theorem decodeModesMessage_aa1 (cfg : Config) (cache : IcaoCache) (now : Nat)
    (msgIn : List Nat) :
    ((decodeModesMessage cfg cache now msgIn).1).aa1 =
      (apStage cache now ((msgIn.getD 0 0) >>> 3)
        (modesMessageLenByType ((msgIn.getD 0 0) >>> 3))
        (decodeCRCStage cfg msgIn ((msgIn.getD 0 0) >>> 3)
          (modesMessageLenByType ((msgIn.getD 0 0) >>> 3))).1
        (decodeCRCStage cfg msgIn ((msgIn.getD 0 0) >>> 3)
          (modesMessageLenByType ((msgIn.getD 0 0) >>> 3))).2.2.1
        (decodeCRCStage cfg msgIn ((msgIn.getD 0 0) >>> 3)
          (modesMessageLenByType ((msgIn.getD 0 0) >>> 3))).2.2.2).2.1.1 := by
  unfold decodeModesMessage
  dsimp only
  repeat' split
  all_goals rfl

theorem decodeModesMessage_aa2 (cfg : Config) (cache : IcaoCache) (now : Nat)
    (msgIn : List Nat) :
    ((decodeModesMessage cfg cache now msgIn).1).aa2 =
      (apStage cache now ((msgIn.getD 0 0) >>> 3)
        (modesMessageLenByType ((msgIn.getD 0 0) >>> 3))
        (decodeCRCStage cfg msgIn ((msgIn.getD 0 0) >>> 3)
          (modesMessageLenByType ((msgIn.getD 0 0) >>> 3))).1
        (decodeCRCStage cfg msgIn ((msgIn.getD 0 0) >>> 3)
          (modesMessageLenByType ((msgIn.getD 0 0) >>> 3))).2.2.1
        (decodeCRCStage cfg msgIn ((msgIn.getD 0 0) >>> 3)
          (modesMessageLenByType ((msgIn.getD 0 0) >>> 3))).2.2.2).2.1.2.1 := by
  unfold decodeModesMessage
  dsimp only
  repeat' split
  all_goals rfl

theorem decodeModesMessage_aa3 (cfg : Config) (cache : IcaoCache) (now : Nat)
    (msgIn : List Nat) :
    ((decodeModesMessage cfg cache now msgIn).1).aa3 =
      (apStage cache now ((msgIn.getD 0 0) >>> 3)
        (modesMessageLenByType ((msgIn.getD 0 0) >>> 3))
        (decodeCRCStage cfg msgIn ((msgIn.getD 0 0) >>> 3)
          (modesMessageLenByType ((msgIn.getD 0 0) >>> 3))).1
        (decodeCRCStage cfg msgIn ((msgIn.getD 0 0) >>> 3)
          (modesMessageLenByType ((msgIn.getD 0 0) >>> 3))).2.2.1
        (decodeCRCStage cfg msgIn ((msgIn.getD 0 0) >>> 3)
          (modesMessageLenByType ((msgIn.getD 0 0) >>> 3))).2.2.2).2.1.2.2 := by
  unfold decodeModesMessage
  dsimp only
  repeat' split
  all_goals rfl

theorem decodeModesMessage_snd (cfg : Config) (cache : IcaoCache) (now : Nat)
    (msgIn : List Nat) :
    (decodeModesMessage cfg cache now msgIn).2 =
      (apStage cache now ((msgIn.getD 0 0) >>> 3)
        (modesMessageLenByType ((msgIn.getD 0 0) >>> 3))
        (decodeCRCStage cfg msgIn ((msgIn.getD 0 0) >>> 3)
          (modesMessageLenByType ((msgIn.getD 0 0) >>> 3))).1
        (decodeCRCStage cfg msgIn ((msgIn.getD 0 0) >>> 3)
          (modesMessageLenByType ((msgIn.getD 0 0) >>> 3))).2.2.1
        (decodeCRCStage cfg msgIn ((msgIn.getD 0 0) >>> 3)
          (modesMessageLenByType ((msgIn.getD 0 0) >>> 3))).2.2.2).2.2 := by
  unfold decodeModesMessage
  dsimp only

/-! ## Claim C9: frame bit length -/

/-- Claim C9: for every frame, the derived bit length is 112 if and only if
the downlink format (the high 5 bits of byte 0) is one of 16, 17, 19, 20,
21, and is 56 for every other downlink format. -/
theorem C9_bit_length (cfg : Config) (cache : IcaoCache) (now : Nat) (msgIn : List Nat) :
    (((decodeModesMessage cfg cache now msgIn).1).msgbits = 112 ↔
      ((msgIn.getD 0 0) >>> 3 = 16 ∨ (msgIn.getD 0 0) >>> 3 = 17 ∨
       (msgIn.getD 0 0) >>> 3 = 19 ∨ (msgIn.getD 0 0) >>> 3 = 20 ∨
       (msgIn.getD 0 0) >>> 3 = 21)) ∧
    (¬((msgIn.getD 0 0) >>> 3 = 16 ∨ (msgIn.getD 0 0) >>> 3 = 17 ∨
       (msgIn.getD 0 0) >>> 3 = 19 ∨ (msgIn.getD 0 0) >>> 3 = 20 ∨
       (msgIn.getD 0 0) >>> 3 = 21) →
      ((decodeModesMessage cfg cache now msgIn).1).msgbits = 56) := by
  rw [decodeModesMessage_msgbits]
  unfold modesMessageLenByType
  constructor
  · constructor
    · intro h
      split at h
      · assumption
      · exact absurd h (by decide)
    · intro h
      rw [if_pos h]
  · intro h
    rw [if_neg h]

/-! ## Claim C2: recency-cache admission -/

theorem apStage_inserted_iff (cache : IcaoCache) (now : Nat) (msgtype msgbits : Nat)
    (msg : List Nat) (crcok : Bool) (errorbit : Int) (a : Nat) :
    ((apStage cache now msgtype msgbits msg crcok errorbit).2.2 = some a ↔
      ((msgtype = 11 ∨ msgtype = 17) ∧
        (apStage cache now msgtype msgbits msg crcok errorbit).1 = true ∧ errorbit = -1 ∧
        a = (((apStage cache now msgtype msgbits msg crcok errorbit).2.1.1) <<< 16) |||
            (((apStage cache now msgtype msgbits msg crcok errorbit).2.1.2.1) <<< 8) |||
            ((apStage cache now msgtype msgbits msg crcok errorbit).2.1.2.2))) := by
  unfold apStage
  dsimp only
  split
  · rename_i hne
    split
    · simp only [Option.some.injEq, reduceCtorEq, false_iff]
      rintro ⟨h11, -⟩
      rcases h11 with h | h <;> [exact hne.1 h; exact hne.2 h]
    · simp only [reduceCtorEq, false_iff]
      rintro ⟨h11, -⟩
      rcases h11 with h | h <;> [exact hne.1 h; exact hne.2 h]
  · rename_i hne
    rcases Decidable.not_and_iff_or_not.mp hne with h | h
    all_goals
      simp only [not_not] at h
      split
      · rename_i hc
        simp only [Option.some.injEq]
        constructor
        · intro ha
          exact ⟨by omega, hc.1, hc.2, ha.symm⟩
        · intro hconj
          exact hconj.2.2.2.symm
      · rename_i hc
        simp only [reduceCtorEq, false_iff]
        intro hconj
        exact hc ⟨hconj.2.1, hconj.2.2.1⟩

/-- Claim C2: for every decoded frame, an ICAO address is inserted into the
recency cache if and only if the frame's downlink format is 11 or 17, its
CRC is valid, and no error bit was corrected (`errorbit = -1`); the
inserted address is the one assembled from the message's address bytes.  In
particular a frame repaired by single- or two-bit correction (which always
sets `errorbit ≥ 0`) never inserts its address. -/
theorem C2_cache_admission (cfg : Config) (cache : IcaoCache) (now : Nat)
    (msgIn : List Nat) (a : Nat) :
    ((decodeModesMessage cfg cache now msgIn).2 = some a ↔
      ((((decodeModesMessage cfg cache now msgIn).1).msgtype = 11 ∨
        ((decodeModesMessage cfg cache now msgIn).1).msgtype = 17) ∧
       ((decodeModesMessage cfg cache now msgIn).1).crcok = true ∧
       ((decodeModesMessage cfg cache now msgIn).1).errorbit = -1 ∧
       a = ((((decodeModesMessage cfg cache now msgIn).1).aa1) <<< 16) |||
           ((((decodeModesMessage cfg cache now msgIn).1).aa2) <<< 8) |||
           (((decodeModesMessage cfg cache now msgIn).1).aa3))) := by
  rw [decodeModesMessage_snd, decodeModesMessage_msgtype, decodeModesMessage_crcok,
    decodeModesMessage_errorbit, decodeModesMessage_aa1, decodeModesMessage_aa2,
    decodeModesMessage_aa3]
  exact apStage_inserted_iff cache now _ _ _ _ _ a

/-! ## Claim C4: recency-cache lookup -/

/-- Claim C4 fails as stated: the C lookup also requires the stored address
to be nonzero (`a && ...`), since 0 marks an empty slot.  At `addr = 0` the
slot indexed by `hash(0)` holds an address equal to 0 with a fresh
timestamp right after `insert(0)`, yet the lookup returns false. -/
theorem C4_counterexample :
    ¬ (ICAOAddressWasRecentlySeen (addRecentlySeenICAOAddr emptyIcaoCache 0 100) 0 100 = true ↔
       ((addRecentlySeenICAOAddr emptyIcaoCache 0 100) (ICAOCacheHashAddress 0 * 2) = 0 ∧
        (100 : Int) - ((addRecentlySeenICAOAddr emptyIcaoCache 0 100)
          (ICAOCacheHashAddress 0 * 2 + 1) : Int) ≤ (MODES_ICAO_CACHE_TTL : Int))) := by
  decide

/-- Claim C4 (amended): `contains_recent(addr)` returns true iff the slot
indexed by `hash(addr)` holds a nonzero address equal to `addr` whose
timestamp is at most 60 seconds old; consequently a lookup of a nonzero
address within 60 s of its last insertion returns true (unless another
address has overwritten the slot; here the lookup is performed right after
the insertion). -/
theorem C4_amended_recency (addr tIns now n : Nat) (cache c : IcaoCache)
    (h0 : addr ≠ 0) (hIns : tIns ≤ now) (h32 : now < 2 ^ 32) (hfresh : now - tIns ≤ 60) :
    (ICAOAddressWasRecentlySeen c addr n = true ↔
      (c (ICAOCacheHashAddress addr * 2) ≠ 0 ∧
       c (ICAOCacheHashAddress addr * 2) = addr ∧
       (n : Int) - (c (ICAOCacheHashAddress addr * 2 + 1) : Int) ≤
         (MODES_ICAO_CACHE_TTL : Int))) ∧
    ICAOAddressWasRecentlySeen (addRecentlySeenICAOAddr cache addr tIns) addr now = true := by
  constructor
  · unfold ICAOAddressWasRecentlySeen
    simp [Bool.and_eq_true, decide_eq_true_eq, and_assoc]
  · unfold ICAOAddressWasRecentlySeen addRecentlySeenICAOAddr
    simp only [if_pos, if_neg, Bool.and_eq_true, bne_iff_ne, ne_eq, beq_iff_eq,
      decide_eq_true_eq]
    have ht : tIns % 2 ^ 32 = tIns := Nat.mod_eq_of_lt (lt_of_le_of_lt hIns h32)
    have hne : ¬ (ICAOCacheHashAddress addr * 2 + 1 = ICAOCacheHashAddress addr * 2) := by
      omega
    rw [if_neg hne, ht]
    refine ⟨⟨h0, trivial⟩, ?_⟩
    unfold MODES_ICAO_CACHE_TTL
    omega

/-- Witness for C4: address 1 inserted at t = 50 into the empty cache and
looked up at t = 100 is found, and the amended slot characterization holds
at that concrete cache. -/
theorem C4_amended_recency_witness :
    (ICAOAddressWasRecentlySeen (addRecentlySeenICAOAddr emptyIcaoCache 1 50) 1 100 = true ↔
      ((addRecentlySeenICAOAddr emptyIcaoCache 1 50) (ICAOCacheHashAddress 1 * 2) ≠ 0 ∧
       (addRecentlySeenICAOAddr emptyIcaoCache 1 50) (ICAOCacheHashAddress 1 * 2) = 1 ∧
       (100 : Int) - ((addRecentlySeenICAOAddr emptyIcaoCache 1 50)
         (ICAOCacheHashAddress 1 * 2 + 1) : Int) ≤ (MODES_ICAO_CACHE_TTL : Int))) ∧
    ICAOAddressWasRecentlySeen (addRecentlySeenICAOAddr emptyIcaoCache 1 50) 1 100 = true :=
  C4_amended_recency 1 50 100 100 emptyIcaoCache (addRecentlySeenICAOAddr emptyIcaoCache 1 50)
    (by decide) (by decide) (by norm_num) (by decide)

/-! ## Claim C6: squawk decoder injectivity -/

/-- Reconstruction of the squawk input bytes from the decoder's output and
the unused X bit: an explicit left inverse of `decodeSquawk`, used to
establish injectivity on the 12 A/B/C/D bits. -/
def squawkEncode (o x : Nat) : Nat × Nat :=
  let a := o / 1000
  let b := o / 100 % 10
  let c := o / 10 % 10
  let d := o % 10
  (((c &&& 1) <<< 4) ||| ((a &&& 1) <<< 3) ||| ((c &&& 2) <<< 1) |||
     (a &&& 2) ||| ((c &&& 4) >>> 2),
   ((a &&& 4) <<< 5) ||| (x <<< 6) ||| ((b &&& 1) <<< 5) ||| ((d &&& 1) <<< 4) |||
     ((b &&& 2) <<< 2) ||| ((d &&& 2) <<< 1) ||| ((b &&& 4) >>> 1) ||| ((d &&& 4) >>> 2))

set_option maxRecDepth 4096 in
theorem squawkEncode_decode : ∀ b2 < 32, ∀ b3 < 256,
    squawkEncode (decodeSquawk b2 b3) ((b3 >>> 6) &&& 1) = (b2, b3) := by
  decide

theorem shiftRight6_and1 (x : Nat) : (x >>> 6) &&& 1 = (x &&& 64) >>> 6 := by
  apply Nat.eq_of_testBit_eq
  intro i
  simp only [Nat.testBit_and, Nat.testBit_shiftRight]
  congr 1
  rw [show (1 : Nat) = 2 ^ 0 from rfl, show (64 : Nat) = 2 ^ 6 from rfl,
    Nat.testBit_two_pow, Nat.testBit_two_pow, decide_eq_decide]
  omega

/-- Claim C6 fails as stated: the middle X bit (mask `0x40` of byte 3) is
one of the 13 interleaved input bits but is never read by the gather, so
the two distinct 13-bit inputs that differ only in X produce the same
squawk — the decoder is not injective on the 13 bits, hence no bijection
with its output values. -/
theorem C6_counterexample :
    (0 : Nat) < 32 ∧ (0 : Nat) < 256 ∧ (64 : Nat) < 256 ∧
    decodeSquawk 0 0 = decodeSquawk 0 64 ∧
    ¬ (((0 : Nat), (0 : Nat)) = ((0 : Nat), (64 : Nat))) := by
  decide

/-- Claim C6 (amended): the squawk decoder ignores the X bit and is a
bijection between the remaining 12 interleaved A/B/C/D input bits and its
output values: any two 13-bit inputs that agree on the X bit and decode to
the same squawk are equal. -/
theorem C6_amended_squawk_injective (b2 b3 b2' b3' : Nat)
    (h2 : b2 < 32) (h3 : b3 < 256) (h2' : b2' < 32) (h3' : b3' < 256)
    (hx : b3 &&& 64 = b3' &&& 64)
    (heq : decodeSquawk b2 b3 = decodeSquawk b2' b3') :
    b2 = b2' ∧ b3 = b3' := by
  have hx6 : (b3 >>> 6) &&& 1 = (b3' >>> 6) &&& 1 := by
    rw [shiftRight6_and1, shiftRight6_and1, hx]
  have e1 := squawkEncode_decode b2 h2 b3 h3
  have e2 := squawkEncode_decode b2' h2' b3' h3'
  rw [heq, hx6, e2] at e1
  exact ⟨(Prod.mk.injEq _ _ _ _).mp e1.symm |>.1, (Prod.mk.injEq _ _ _ _).mp e1.symm |>.2⟩

/-- Witness for C6 (amended): two concrete equal-X inputs decoding to the
same squawk are equal; instantiated at `b2 = b2' = 5`, `b3 = b3' = 7`. -/
theorem C6_amended_squawk_injective_witness : (5 : Nat) = 5 ∧ (7 : Nat) = 7 :=
  C6_amended_squawk_injective 5 7 5 7 (by decide) (by decide) (by decide) (by decide)
    (by decide) (by decide)

theorem decodeModesMessage_metype (cfg : Config) (cache : IcaoCache) (now : Nat)
    (msgIn : List Nat) :
    ((decodeModesMessage cfg cache now msgIn).1).metype =
      (((decodeCRCStage cfg msgIn ((msgIn.getD 0 0) >>> 3)
          (modesMessageLenByType ((msgIn.getD 0 0) >>> 3))).1).getD 4 0) >>> 3 := by
  unfold decodeModesMessage
  dsimp only
  repeat' split
  all_goals rfl

theorem decodeModesMessage_mesub (cfg : Config) (cache : IcaoCache) (now : Nat)
    (msgIn : List Nat) :
    ((decodeModesMessage cfg cache now msgIn).1).mesub =
      (((decodeCRCStage cfg msgIn ((msgIn.getD 0 0) >>> 3)
          (modesMessageLenByType ((msgIn.getD 0 0) >>> 3))).1).getD 4 0) &&& 7 := by
  unfold decodeModesMessage
  dsimp only
  repeat' split
  all_goals rfl

/-! ## Claim C7: DF17 velocity magnitude -/

theorem decode_velocity_eq_sqrt (cfg : Config) (cache : IcaoCache) (now : Nat)
    (msgIn : List Nat)
    (h17 : ((decodeModesMessage cfg cache now msgIn).1).msgtype = 17)
    (h19 : ((decodeModesMessage cfg cache now msgIn).1).metype = 19)
    (hsub : ((decodeModesMessage cfg cache now msgIn).1).mesub = 1 ∨
            ((decodeModesMessage cfg cache now msgIn).1).mesub = 2) :
    ((decodeModesMessage cfg cache now msgIn).1).velocity =
      Nat.sqrt (((decodeModesMessage cfg cache now msgIn).1).ns_velocity *
                  ((decodeModesMessage cfg cache now msgIn).1).ns_velocity +
                ((decodeModesMessage cfg cache now msgIn).1).ew_velocity *
                  ((decodeModesMessage cfg cache now msgIn).1).ew_velocity) := by
  rw [decodeModesMessage_msgtype] at h17
  rw [decodeModesMessage_metype] at h19
  rw [decodeModesMessage_mesub] at hsub
  unfold decodeModesMessage
  dsimp only
  repeat' split
  all_goals first
    | rfl
    | (exfalso; omega)
    | simp_all

/-- A concrete DF17 airborne velocity frame (subtype 1) with E/W component
2 and N/S component 3. -/
def velMsgC7 : List Nat := [0x88, 0, 0, 0, 0x99, 0, 2, 0, 0x60, 0, 0, 0, 0, 0]

/-- The `--no-fix` configuration. -/
def noFixConfig : Config := { fix_errors := false, aggressive := false, check_crc := true }

/-- Claim C7 fails as stated: the C code stores `sqrt(ns*ns + ew*ew)` into
the `int` field `mm->velocity` (line 1050), truncating toward zero rather
than rounding to nearest.  For `ew = 2`, `ns = 3` the Euclidean norm is
`sqrt 13 = 3.60...`, whose nearest integer is 4, but the decoder emits 3. -/
theorem C7_counterexample :
    (decodeModesMessage noFixConfig emptyIcaoCache 0 velMsgC7).1.msgtype = 17 ∧
    (decodeModesMessage noFixConfig emptyIcaoCache 0 velMsgC7).1.metype = 19 ∧
    (decodeModesMessage noFixConfig emptyIcaoCache 0 velMsgC7).1.mesub = 1 ∧
    (decodeModesMessage noFixConfig emptyIcaoCache 0 velMsgC7).1.ew_velocity = 2 ∧
    (decodeModesMessage noFixConfig emptyIcaoCache 0 velMsgC7).1.ns_velocity = 3 ∧
    (decodeModesMessage noFixConfig emptyIcaoCache 0 velMsgC7).1.velocity = 3 ∧
    specRoundSqrt (2 * 2 + 3 * 3) = 4 ∧
    (decodeModesMessage noFixConfig emptyIcaoCache 0 velMsgC7).1.velocity ≠
      specRoundSqrt (2 * 2 + 3 * 3) := by
  have hsq : Nat.sqrt 13 = 3 := (Nat.eq_sqrt.mpr (by norm_num)).symm
  have hew : (decodeModesMessage noFixConfig emptyIcaoCache 0 velMsgC7).1.ew_velocity = 2 := by
    decide
  have hns : (decodeModesMessage noFixConfig emptyIcaoCache 0 velMsgC7).1.ns_velocity = 3 := by
    decide
  have hv := decode_velocity_eq_sqrt noFixConfig emptyIcaoCache 0 velMsgC7
    (by decide) (by decide) (Or.inl (by decide))
  rw [hns, hew] at hv
  have hv3 : (decodeModesMessage noFixConfig emptyIcaoCache 0 velMsgC7).1.velocity = 3 := by
    rw [hv]
    norm_num [hsq]
  have hround : specRoundSqrt (2 * 2 + 3 * 3) = 4 := by
    unfold specRoundSqrt
    norm_num [hsq]
  exact ⟨by decide, by decide, by decide, hew, hns, hv3, hround, by rw [hv3, hround]; decide⟩

/-- Claim C7 (amended): for every DF17 airborne velocity message of subtype
1 or 2, the derived ground speed equals the Euclidean norm of the E/W and
N/S components truncated toward zero, the floor of `sqrt (ns^2 + ew^2)`
(the C `(int)` cast of a correctly rounded `sqrt`), not the nearest
integer. -/
theorem C7_amended_velocity (cfg : Config) (cache : IcaoCache) (now : Nat)
    (msgIn : List Nat)
    (h17 : ((decodeModesMessage cfg cache now msgIn).1).msgtype = 17)
    (h19 : ((decodeModesMessage cfg cache now msgIn).1).metype = 19)
    (hsub : ((decodeModesMessage cfg cache now msgIn).1).mesub = 1 ∨
            ((decodeModesMessage cfg cache now msgIn).1).mesub = 2) :
    ((decodeModesMessage cfg cache now msgIn).1).velocity =
      Nat.sqrt (((decodeModesMessage cfg cache now msgIn).1).ns_velocity *
                  ((decodeModesMessage cfg cache now msgIn).1).ns_velocity +
                ((decodeModesMessage cfg cache now msgIn).1).ew_velocity *
                  ((decodeModesMessage cfg cache now msgIn).1).ew_velocity) :=
  decode_velocity_eq_sqrt cfg cache now msgIn h17 h19 hsub

/-- Witness for C7 (amended): at the concrete subtype-1 frame `velMsgC7`
the decoded ground speed equals the truncated square root. -/
theorem C7_amended_velocity_witness :
    (decodeModesMessage noFixConfig emptyIcaoCache 0 velMsgC7).1.velocity =
      Nat.sqrt ((decodeModesMessage noFixConfig emptyIcaoCache 0 velMsgC7).1.ns_velocity *
                  (decodeModesMessage noFixConfig emptyIcaoCache 0 velMsgC7).1.ns_velocity +
                (decodeModesMessage noFixConfig emptyIcaoCache 0 velMsgC7).1.ew_velocity *
                  (decodeModesMessage noFixConfig emptyIcaoCache 0 velMsgC7).1.ew_velocity) :=
  C7_amended_velocity noFixConfig emptyIcaoCache 0 velMsgC7
    (by decide) (by decide) (Or.inl (by decide))

/-! ## Claim C1: malformed hex lines -/

/-- Claim C1 fails on the code: `hexToBin` returns 0 on success and on
every failure alike, and `decodeHexMessage` ignores the return value, so a
malformed line is NOT discarded: the (unwritten) message buffer is decoded
and used anyway.  Concretely, for the malformed line `*ZZ;` the buffer is
left untouched, the return value 0 is indistinguishable from the one for a
well-formed line, and `decodeHexMessage` produces exactly the decode of the
stale buffer contents and hands it on to `useModesMessage`. -/
theorem C1_malformed_line_reaches_decoder :
    (hexToBin ("*ZZ;".toList) (List.replicate 14 0)).1 = List.replicate 14 0 ∧
    (hexToBin ("*ZZ;".toList) (List.replicate 14 0)).2 = 0 ∧
    (hexToBin ("*8D4840D6202CC371C32CE0576098;".toList) (List.replicate 14 0)).2 = 0 ∧
    decodeHexMessage defaultConfig emptyIcaoCache 0 ("*ZZ;".toList) (List.replicate 14 0) =
      decodeModesMessage defaultConfig emptyIcaoCache 0 (List.replicate 14 0) := by
  have hb : (hexToBin ("*ZZ;".toList) (List.replicate 14 0)).1 = List.replicate 14 0 := by
    decide
  refine ⟨hb, by decide, by decide, ?_⟩
  unfold decodeHexMessage
  dsimp only
  rw [hb]

/-! ## Claim C8: client buffer overflow -/

theorem isPrefixOf_append_self (s r : List Nat) : s.isPrefixOf (s ++ r) = true := by
  induction s with
  | nil => simp [List.isPrefixOf]
  | cons a t ih => simpa [List.isPrefixOf] using ih

theorem append_of_isPrefixOf (s : List Nat) : ∀ b, s.isPrefixOf b = true → ∃ t, b = s ++ t := by
  induction s with
  | nil => exact fun b _ => ⟨b, rfl⟩
  | cons a as ih =>
    intro b h
    cases b with
    | nil => simp [List.isPrefixOf] at h
    | cons x xs =>
      simp only [List.isPrefixOf, Bool.and_eq_true, beq_iff_eq] at h
      obtain ⟨t, ht⟩ := ih xs h.2
      exact ⟨t, by rw [h.1, ht]; rfl⟩

/-- `strstr` finds no separator exactly when the buffer has no decomposition
`l ++ sep ++ r`. -/
theorem firstSepIdx_eq_none_iff (b sep : List Nat) (hsep : sep ≠ []) :
    firstSepIdx b sep = none ↔ ¬ ∃ l r, b = l ++ sep ++ r := by
  unfold firstSepIdx sepAt
  rw [List.find?_eq_none]
  constructor
  · rintro h ⟨l, r, rfl⟩
    have hlen : 0 < sep.length := List.length_pos.mpr hsep
    have hi : l.length < (l ++ sep ++ r).length := by
      simp only [List.length_append]
      omega
    refine h l.length (List.mem_range.mpr hi) ?_
    have hdrop : (l ++ sep ++ r).drop l.length = sep ++ r := by
      rw [List.append_assoc, List.drop_left]
    rw [hdrop]
    exact isPrefixOf_append_self sep r
  · intro hno i _ hpref
    obtain ⟨t, ht⟩ := append_of_isPrefixOf sep (b.drop i) hpref
    refine hno ⟨b.take i, t, ?_⟩
    conv_lhs => rw [← List.take_append_drop i b]
    rw [ht, ← List.append_assoc]

/-- Claim C8: when a read fills the client's 1024-byte buffer and the
combined contents contain no complete separator-terminated message, the
buffer is cleared (length reset to 0) and the connection is kept open
(the loop result is `some []`, not the destroyed-client `none`). -/
theorem C8_overflow_clears_and_keeps (buf data sep : List Nat)
    (handler : List Nat → Bool) (hsep : sep ≠ [])
    (hfill : (buf ++ data).length = MODES_CLIENT_BUF_SIZE)
    (hno : ¬ ∃ l r, buf ++ data = l ++ sep ++ r) :
    modesReadFromClient buf sep handler [ReadEvent.bytes data] = some [] := by
  have hdl : data.length = MODES_CLIENT_BUF_SIZE - buf.length := by
    simp only [List.length_append] at hfill
    omega
  have hnone : firstSepIdx (buf ++ data) sep = none :=
    (firstSepIdx_eq_none_iff _ _ hsep).mpr hno
  unfold modesReadFromClient
  dsimp only
  rw [List.take_of_length_le (le_of_eq hdl)]
  have hext : extractMessages ((buf ++ data).length + 1) (buf ++ data) sep handler false =
      some (buf ++ data, false) := by
    unfold extractMessages
    rw [hnone]
  rw [hext]
  dsimp only
  rw [if_pos hfill]
  rfl

/-- Witness for C8: an empty buffer filled by a single 1024-byte read of
the byte 65 with separator `\n` (byte 10) ends cleared with the client
alive. -/
theorem C8_overflow_clears_and_keeps_witness :
    modesReadFromClient [] [10] (fun _ => false)
      [ReadEvent.bytes (List.replicate 1024 65)] = some [] := by
  have hno : ¬ ∃ l r, ([] : List Nat) ++ List.replicate 1024 65 = l ++ [10] ++ r := by
    rintro ⟨l, r, h⟩
    have h10 : (10 : Nat) ∈ ([] : List Nat) ++ List.replicate 1024 65 := by
      rw [h]; simp
    rw [List.nil_append, List.mem_replicate] at h10
    omega
  exact C8_overflow_clears_and_keeps [] (List.replicate 1024 65) [10] (fun _ => false)
    (by decide) (by rw [List.nil_append, List.length_replicate]; rfl) hno

/-! ## Claim C10: CPR packet selection -/

/-- Claim C10: when the CPR resolver produces a position (the NL guard
passes), the even snapshot is the basis for latitude and longitude exactly
when its capture timestamp is strictly greater than the odd snapshot's;
with equal timestamps the `else` branch runs and the odd snapshot's data
determines the result. -/
theorem C10_cpr_selects_newer (a : Aircraft)
    (h : cprNLFunction (cprRlat0 a) = cprNLFunction (cprRlat1 a)) :
    (a.even_cprtime > a.odd_cprtime →
       (decodeCPR a).lat = cprRlat0 a ∧ (decodeCPR a).lon = cprLonEven a) ∧
    (a.even_cprtime ≤ a.odd_cprtime →
       (decodeCPR a).lat = cprRlat1 a ∧ (decodeCPR a).lon = cprLonOdd a) := by
  unfold decodeCPR
  rw [if_neg (by simp [h])]
  constructor
  · intro hgt
    rw [if_pos hgt]
    exact ⟨rfl, rfl⟩
  · intro hle
    rw [if_neg (by omega)]
    exact ⟨rfl, rfl⟩

/-- Witness for C10: the all-zero snapshots (both resolved latitudes are 0,
so NL agrees) with even time 5 and odd time 3: the even packet is chosen. -/
theorem C10_cpr_selects_newer_witness :
    (({ even_cprtime := 5, odd_cprtime := 3 } : Aircraft).even_cprtime >
        ({ even_cprtime := 5, odd_cprtime := 3 } : Aircraft).odd_cprtime →
      (decodeCPR { even_cprtime := 5, odd_cprtime := 3 }).lat =
          cprRlat0 { even_cprtime := 5, odd_cprtime := 3 } ∧
        (decodeCPR { even_cprtime := 5, odd_cprtime := 3 }).lon =
          cprLonEven { even_cprtime := 5, odd_cprtime := 3 }) ∧
    (({ even_cprtime := 5, odd_cprtime := 3 } : Aircraft).even_cprtime ≤
        ({ even_cprtime := 5, odd_cprtime := 3 } : Aircraft).odd_cprtime →
      (decodeCPR { even_cprtime := 5, odd_cprtime := 3 }).lat =
          cprRlat1 { even_cprtime := 5, odd_cprtime := 3 } ∧
        (decodeCPR { even_cprtime := 5, odd_cprtime := 3 }).lon =
          cprLonOdd { even_cprtime := 5, odd_cprtime := 3 }) := by
  have hj : cprJ { even_cprtime := 5, odd_cprtime := 3 } = 0 := by
    unfold cprJ
    norm_num
  have hm : cprModFunction 0 60 = 0 := by decide
  have hm59 : cprModFunction 0 59 = 0 := by decide
  have hr0 : cprRlat0 { even_cprtime := 5, odd_cprtime := 3 } = 0 := by
    unfold cprRlat0
    rw [hj, hm]
    norm_num
  have hr1 : cprRlat1 { even_cprtime := 5, odd_cprtime := 3 } = 0 := by
    unfold cprRlat1
    rw [hj, hm59]
    norm_num
  exact C10_cpr_selects_newer { even_cprtime := 5, odd_cprtime := 3 } (by rw [hr0, hr1])

/-! ## Claim C5: CPR decode gating in the tracker -/

theorem storeCprSnapshot_lat (a : Aircraft) (mm : ModesMessage) (now : Int) :
    (storeCprSnapshot a mm now).lat = a.lat ∧ (storeCprSnapshot a mm now).lon = a.lon := by
  unfold storeCprSnapshot
  split <;> exact ⟨rfl, rfl⟩

theorem storeCprSnapshot_time (a : Aircraft) (mm : ModesMessage) (now : Int) :
    (storeCprSnapshot a mm now).odd_cprtime = now ∨
    (storeCprSnapshot a mm now).even_cprtime = now := by
  unfold storeCprSnapshot
  split
  · exact Or.inl rfl
  · exact Or.inr rfl

/-- Claim C5: the tracker's DF17 airborne-position update assigns a new
latitude/longitude only when both CPR snapshots are present (nonzero
capture time, given any realistic clock `now > 10000 ms`), their capture
times differ by at most 10,000 ms and the NL of the two resolved latitudes
agree; in every other case the aircraft's `lat` and `lon` fields are left
unchanged by the update. -/
theorem C5_cpr_update_gate (a : Aircraft) (mm : ModesMessage) (now : Int)
    (hnow : 10000 < now)
    (hno : ¬ ((storeCprSnapshot a mm now).odd_cprtime ≠ 0 ∧
              (storeCprSnapshot a mm now).even_cprtime ≠ 0 ∧
              ((storeCprSnapshot a mm now).even_cprtime -
                 (storeCprSnapshot a mm now).odd_cprtime).natAbs ≤ 10000 ∧
              cprNLFunction (cprRlat0 (storeCprSnapshot a mm now)) =
                cprNLFunction (cprRlat1 (storeCprSnapshot a mm now)))) :
    (trackPosition a mm now).lat = a.lat ∧ (trackPosition a mm now).lon = a.lon := by
  obtain ⟨hlat, hlon⟩ := storeCprSnapshot_lat a mm now
  unfold trackPosition
  dsimp only
  split
  · rename_i hdt
    unfold decodeCPR
    split
    · exact ⟨hlat, hlon⟩
    · rename_i hNL
      exfalso
      apply hno
      have hNLeq : cprNLFunction (cprRlat0 (storeCprSnapshot a mm now)) =
          cprNLFunction (cprRlat1 (storeCprSnapshot a mm now)) := by
        exact not_ne_iff.mp hNL
      rcases storeCprSnapshot_time a mm now with ht | ht <;>
        exact ⟨by omega, by omega, hdt, hNLeq⟩
  · exact ⟨hlat, hlon⟩

/-- Witness for C5: an aircraft with no prior even snapshot receives an odd
position frame at `now = 20000`; the capture times are 20,000 ms apart, so
the resolver is not invoked and the position is unchanged. -/
theorem C5_cpr_update_gate_witness :
    (trackPosition {} { fflag := true } 20000).lat = ({} : Aircraft).lat ∧
    (trackPosition {} { fflag := true } 20000).lon = ({} : Aircraft).lon := by
  refine C5_cpr_update_gate {} { fflag := true } 20000 (by decide) ?_
  rintro ⟨-, heven, hdt, -⟩
  have he : (storeCprSnapshot {} { fflag := true } 20000).even_cprtime = 0 := rfl
  exact heven he

/-! ## Claim C3: single-bit repair

The development below establishes that for a frame whose checksum matches
its trailing CRC bytes, flipping any single bit `k` and running
`fixSingleBitErrors` recovers exactly `k` and the original bytes.  The key
facts are the linearity of `modesChecksum` under single-bit flips and
three finite properties of the parity table (its first 88 entries are
pairwise distinct, nonzero, and never a power of two). -/

theorem getD_set_self (l : List Nat) (i : Nat) (v : Nat) (h : i < l.length) :
    (l.set i v).getD i 0 = v := by
  simp [List.getElem?_set_self h]

theorem getD_set_ne (l : List Nat) (i j : Nat) (v : Nat) (h : i ≠ j) :
    (l.set i v).getD j 0 = l.getD j 0 := by
  simp [List.getElem?_set_ne h]

theorem getD_lt_of_bytes (msg : List Nat) (hbytes : ∀ b ∈ msg, b < 256) (i : Nat) :
    msg.getD i 0 < 256 := by
  rcases Nat.lt_or_ge i msg.length with h | h
  · have : msg.getD i 0 ∈ msg := by
      rw [List.getD_eq_getElem?_getD, List.getElem?_eq_getElem h]
      exact List.getElem_mem h
    exact hbytes _ this
  · rw [List.getD_eq_getElem?_getD, List.getElem?_eq_none h]
    exact Nat.lt_of_lt_of_le (by decide) (Nat.le_refl 256)

theorem flipBit_length (msg : List Nat) (j : Nat) : (flipBit msg j).length = msg.length := by
  unfold flipBit
  exact List.length_set msg _ _

theorem flipBit_bytes (msg : List Nat) (j : Nat) (hbytes : ∀ b ∈ msg, b < 256)
    (hj : j % 8 < 8) : ∀ b ∈ flipBit msg j, b < 256 := by
  intro b hb
  rcases List.mem_or_eq_of_mem_set hb with h | h
  · exact hbytes b h
  · subst h
    apply Nat.xor_lt_two_pow (n := 8) (getD_lt_of_bytes msg hbytes _)
    rw [Nat.shiftLeft_eq, Nat.one_mul]
    exact Nat.pow_lt_pow_right (by decide) (by omega)

/-- The indicator test `msg[j/8] & mask` in terms of `Nat.testBit`. -/
theorem msgBit_eq_testBit (msg : List Nat) (j : Nat) :
    msgBit msg j = (msg.getD (j / 8) 0).testBit (7 - j % 8) := by
  unfold msgBit
  rw [Nat.shiftLeft_eq, Nat.one_mul, Nat.and_two_pow]
  rcases h : (msg.getD (j / 8) 0).testBit (7 - j % 8)
  · simp
  · simp [Nat.pos_iff_ne_zero, Nat.pos_pow_of_pos]

theorem msgBit_flipBit_self (msg : List Nat) (j : Nat) (h : j / 8 < msg.length) :
    msgBit (flipBit msg j) j = ! msgBit msg j := by
  rw [msgBit_eq_testBit, msgBit_eq_testBit]
  unfold flipBit
  rw [getD_set_self _ _ _ h, Nat.shiftLeft_eq, Nat.one_mul, Nat.testBit_xor,
    Nat.testBit_two_pow_self, Bool.xor_true]

theorem msgBit_flipBit_ne (msg : List Nat) (i j : Nat) (hij : i ≠ j)
    (hi : i < 8 * msg.length) (hj : j < 8 * msg.length) :
    msgBit (flipBit msg i) j = msgBit msg j := by
  rw [msgBit_eq_testBit, msgBit_eq_testBit]
  unfold flipBit
  by_cases hb : i / 8 = j / 8
  · rw [hb, getD_set_self _ _ _ (by omega), Nat.shiftLeft_eq, Nat.one_mul,
      Nat.testBit_xor, Nat.testBit_two_pow_of_ne (by omega), Bool.xor_false]
  · rw [getD_set_ne _ _ _ _ hb]

/-- Contribution of message bit `j` to the checksum accumulator. -/
def msgContrib (msg : List Nat) (offset j : Nat) : Nat :=
  if msgBit msg j then tableAt (j + offset) else 0

theorem modesChecksum_eq_contrib (msg : List Nat) (bits : Nat) :
    modesChecksum msg bits =
      (List.range bits).foldl
        (fun c j => c ^^^ msgContrib msg (if bits = 112 then 0 else 112 - 56) j) 0 := by
  unfold modesChecksum msgContrib
  dsimp only
  congr 1
  funext c j
  split
  · rfl
  · exact (Nat.xor_zero c).symm

theorem foldl_xor_acc (f : Nat → Nat) (l : List Nat) (a : Nat) :
    l.foldl (fun c j => c ^^^ f j) a = a ^^^ l.foldl (fun c j => c ^^^ f j) 0 := by
  induction l generalizing a with
  | nil => exact (Nat.xor_zero a).symm
  | cons x l ih =>
    rw [List.foldl_cons, List.foldl_cons, ih, ih (0 ^^^ f x), Nat.zero_xor, Nat.xor_assoc]

theorem foldl_xor_congr (f g : Nat → Nat) (l : List Nat) (hfg : ∀ j ∈ l, f j = g j) :
    l.foldl (fun c j => c ^^^ f j) 0 = l.foldl (fun c j => c ^^^ g j) 0 := by
  induction l with
  | nil => rfl
  | cons x l ih =>
    rw [List.foldl_cons, List.foldl_cons, foldl_xor_acc f, foldl_xor_acc g,
      hfg x (List.mem_cons_self x l), ih fun j hj => hfg j (List.mem_cons_of_mem x hj)]

theorem foldl_xor_single_diff (f g : Nat → Nat) (t k : Nat) (l : List Nat)
    (hk : f k = g k ^^^ t) (hothers : ∀ j ∈ l, j ≠ k → f j = g j)
    (hmem : k ∈ l) (hnd : l.Nodup) :
    l.foldl (fun c j => c ^^^ f j) 0 = l.foldl (fun c j => c ^^^ g j) 0 ^^^ t := by
  induction l with
  | nil => cases hmem
  | cons x l ih =>
    rw [List.foldl_cons, List.foldl_cons, foldl_xor_acc f, foldl_xor_acc g, Nat.zero_xor,
      Nat.zero_xor]
    by_cases hx : x = k
    · subst hx
      have hnot : x ∉ l := (List.nodup_cons.mp hnd).1
      have hcongr : l.foldl (fun c j => c ^^^ f j) 0 = l.foldl (fun c j => c ^^^ g j) 0 :=
        foldl_xor_congr f g l fun j hj =>
          hothers j (List.mem_cons_of_mem x hj) (fun hjx => hnot (hjx ▸ hj))
      rw [hcongr, hk, Nat.xor_assoc, Nat.xor_assoc, Nat.xor_comm t]
    · have hmem' : k ∈ l := by
        rcases List.mem_cons.mp hmem with h | h
        · exact absurd h.symm hx
        · exact h
      rw [hothers x (List.mem_cons_self x l) hx,
        ih (fun j hj hjk => hothers j (List.mem_cons_of_mem x hj) hjk) hmem'
          (List.nodup_cons.mp hnd).2,
        Nat.xor_assoc]

theorem modesChecksum_flipBit (msg : List Nat) (bits j : Nat)
    (hbits : bits = 56 ∨ bits = 112) (hlen : msg.length = bits / 8) (hj : j < bits) :
    modesChecksum (flipBit msg j) bits =
      modesChecksum msg bits ^^^ tableAt (j + (if bits = 112 then 0 else 112 - 56)) := by
  have hdiv : j / 8 < msg.length := by
    rcases hbits with h | h <;> omega
  have hmul : j < 8 * msg.length := by
    rcases hbits with h | h <;> omega
  rw [modesChecksum_eq_contrib, modesChecksum_eq_contrib]
  apply foldl_xor_single_diff _ _ _ j
  · unfold msgContrib
    rw [msgBit_flipBit_self msg j hdiv]
    cases hb : msgBit msg j
    · simp [hb]
    · simp [hb]
  · intro j2 hj2 hne
    unfold msgContrib
    rw [msgBit_flipBit_ne msg j j2 (fun h => hne h.symm) hmul
      (by have := List.mem_range.mp hj2; rcases hbits with h | h <;> omega)]
  · exact List.mem_range.mpr hj
  · exact List.nodup_range bits

set_option maxRecDepth 8192 in
theorem tableAt_distinct : ∀ i < 88, ∀ i2 < 88, tableAt i = tableAt i2 → i = i2 := by decide

theorem tableAt_ne_zero : ∀ i < 88, tableAt i ≠ 0 := by decide

theorem tableAt_ne_two_pow : ∀ i < 88, ∀ p < 24, tableAt i ≠ 1 <<< p := by decide

theorem tableAt_zero_of_ge : ∀ i < 112, 88 ≤ i → tableAt i = 0 := by decide

theorem testBit_false_of_lt_256 (x i : Nat) (hx : x < 256) (hi : 8 ≤ i) :
    x.testBit i = false := by
  apply Nat.testBit_lt_two_pow
  calc x < 256 := hx
  _ = 2 ^ 8 := rfl
  _ ≤ 2 ^ i := Nat.pow_le_pow_right (by decide) hi

theorem stored3_testBit (x y z : Nat) (hy : y < 256) (hz : z < 256) (i : Nat) :
    ((x <<< 16) ||| (y <<< 8) ||| z).testBit i =
      if i < 8 then z.testBit i
      else if i < 16 then y.testBit (i - 8)
      else x.testBit (i - 16) := by
  rw [Nat.testBit_or, Nat.testBit_or, Nat.testBit_shiftLeft, Nat.testBit_shiftLeft]
  by_cases h8 : i < 8
  · rw [if_pos h8]
    simp [show ¬ 16 ≤ i by omega, show ¬ 8 ≤ i by omega]
  · by_cases h16 : i < 16
    · rw [if_neg h8, if_pos h16]
      have hzb : z.testBit i = false := testBit_false_of_lt_256 z i hz (by omega)
      simp [show ¬ 16 ≤ i by omega, show 8 ≤ i by omega, hzb]
    · rw [if_neg h8, if_neg h16]
      have hzb : z.testBit i = false := testBit_false_of_lt_256 z i hz (by omega)
      have hyb : y.testBit (i - 8) = false := testBit_false_of_lt_256 y (i - 8) hy (by omega)
      simp [show 16 ≤ i by omega, show 8 ≤ i by omega, hzb, hyb]

theorem stored3_flip_hi (x y z q : Nat) (hy : y < 256) (hz : z < 256) (hq : q < 8) :
    ((x ^^^ 1 <<< q) <<< 16) ||| (y <<< 8) ||| z =
      ((x <<< 16) ||| (y <<< 8) ||| z) ^^^ 1 <<< (16 + q) := by
  apply Nat.eq_of_testBit_eq
  intro i
  simp only [Nat.one_shiftLeft]
  rw [Nat.testBit_xor, stored3_testBit _ y z hy hz, stored3_testBit x y z hy hz,
    Nat.testBit_two_pow]
  by_cases h8 : i < 8
  · rw [if_pos h8, if_pos h8, show decide (16 + q = i) = false from by
      rw [decide_eq_false_iff_not]; omega]
    rw [Bool.xor_false]
  · by_cases h16 : i < 16
    · rw [if_neg h8, if_pos h16, if_neg h8, if_pos h16,
        show decide (16 + q = i) = false from by rw [decide_eq_false_iff_not]; omega]
      rw [Bool.xor_false]
    · rw [if_neg h8, if_neg h16, if_neg h8, if_neg h16,
        Nat.testBit_xor, Nat.testBit_two_pow,
        show decide (q = i - 16) = decide (16 + q = i) from by rw [decide_eq_decide]; omega]

theorem stored3_flip_mid (x y z q : Nat) (hy : y < 256) (hz : z < 256) (hq : q < 8) :
    (x <<< 16) ||| ((y ^^^ 1 <<< q) <<< 8) ||| z =
      ((x <<< 16) ||| (y <<< 8) ||| z) ^^^ 1 <<< (8 + q) := by
  have hy' : y ^^^ 1 <<< q < 256 := by
    apply Nat.xor_lt_two_pow (n := 8) hy
    rw [Nat.shiftLeft_eq, Nat.one_mul]
    exact Nat.pow_lt_pow_right (by decide) (by omega)
  apply Nat.eq_of_testBit_eq
  intro i
  simp only [Nat.one_shiftLeft]
  rw [Nat.testBit_xor, stored3_testBit x _ z (by rwa [Nat.one_shiftLeft] at hy') hz,
    stored3_testBit x y z hy hz, Nat.testBit_two_pow]
  by_cases h8 : i < 8
  · rw [if_pos h8, if_pos h8, show decide (8 + q = i) = false from by
      rw [decide_eq_false_iff_not]; omega]
    rw [Bool.xor_false]
  · by_cases h16 : i < 16
    · rw [if_neg h8, if_pos h16, if_neg h8, if_pos h16,
        Nat.testBit_xor, Nat.testBit_two_pow,
        show decide (q = i - 8) = decide (8 + q = i) from by rw [decide_eq_decide]; omega]
    · rw [if_neg h8, if_neg h16, if_neg h8, if_neg h16,
        show decide (8 + q = i) = false from by rw [decide_eq_false_iff_not]; omega]
      rw [Bool.xor_false]

theorem stored3_flip_lo (x y z q : Nat) (hy : y < 256) (hz : z < 256) (hq : q < 8) :
    (x <<< 16) ||| (y <<< 8) ||| (z ^^^ 1 <<< q) =
      ((x <<< 16) ||| (y <<< 8) ||| z) ^^^ 1 <<< q := by
  have hz' : z ^^^ 1 <<< q < 256 := by
    apply Nat.xor_lt_two_pow (n := 8) hz
    rw [Nat.shiftLeft_eq, Nat.one_mul]
    exact Nat.pow_lt_pow_right (by decide) (by omega)
  apply Nat.eq_of_testBit_eq
  intro i
  simp only [Nat.one_shiftLeft]
  rw [Nat.testBit_xor, stored3_testBit x y _ hy (by rwa [Nat.one_shiftLeft] at hz'),
    stored3_testBit x y z hy hz, Nat.testBit_two_pow]
  by_cases h8 : i < 8
  · rw [if_pos h8, if_pos h8, Nat.testBit_xor, Nat.testBit_two_pow]
  · by_cases h16 : i < 16
    · rw [if_neg h8, if_pos h16,
        show decide (q = i) = false from by rw [decide_eq_false_iff_not]; omega]
      rw [Bool.xor_false, if_neg h8]
    · rw [if_neg h8, if_neg h16,
        show decide (q = i) = false from by rw [decide_eq_false_iff_not]; omega]
      rw [Bool.xor_false, if_neg h8]

theorem storedCRC_flipBit_low (msg : List Nat) (bits j : Nat)
    (hbits : bits = 56 ∨ bits = 112) (hj : j < bits - 24) :
    storedCRC (flipBit msg j) bits = storedCRC msg bits := by
  unfold storedCRC flipBit
  rw [getD_set_ne _ _ _ _ (by rcases hbits with h | h <;> omega),
    getD_set_ne _ _ _ _ (by rcases hbits with h | h <;> omega),
    getD_set_ne _ _ _ _ (by rcases hbits with h | h <;> omega)]

theorem storedCRC_flipBit_high (msg : List Nat) (bits j : Nat)
    (hbits : bits = 56 ∨ bits = 112) (hlen : msg.length = bits / 8)
    (hbytes : ∀ b ∈ msg, b < 256) (hj1 : bits - 24 ≤ j) (hj2 : j < bits) :
    storedCRC (flipBit msg j) bits = storedCRC msg bits ^^^ 1 <<< (bits - 1 - j) := by
  have hb3 := getD_lt_of_bytes msg hbytes (bits / 8 - 3)
  have hb2 := getD_lt_of_bytes msg hbytes (bits / 8 - 2)
  have hb1 := getD_lt_of_bytes msg hbytes (bits / 8 - 1)
  have hq : j % 8 < 8 := Nat.mod_lt j (by decide)
  unfold storedCRC flipBit
  have hcase : j / 8 = bits / 8 - 3 ∨ j / 8 = bits / 8 - 2 ∨ j / 8 = bits / 8 - 1 := by
    rcases hbits with h | h <;> omega
  rcases hcase with h | h | h
  · rw [h, getD_set_self _ _ _ (by rcases hbits with hb | hb <;> omega),
      getD_set_ne _ _ _ _ (by rcases hbits with hb | hb <;> omega),
      getD_set_ne _ _ _ _ (by rcases hbits with hb | hb <;> omega),
      show bits - 1 - j = 16 + (7 - j % 8) from by rcases hbits with hb | hb <;> omega]
    exact stored3_flip_hi _ _ _ _ hb2 hb1 (by omega)
  · rw [h, getD_set_self _ _ _ (by rcases hbits with hb | hb <;> omega),
      getD_set_ne _ _ _ _ (by rcases hbits with hb | hb <;> omega),
      getD_set_ne _ _ _ _ (by rcases hbits with hb | hb <;> omega),
      show bits - 1 - j = 8 + (7 - j % 8) from by rcases hbits with hb | hb <;> omega]
    exact stored3_flip_mid _ _ _ _ hb2 hb1 (by omega)
  · rw [h, getD_set_self _ _ _ (by rcases hbits with hb | hb <;> omega),
      getD_set_ne _ _ _ _ (by rcases hbits with hb | hb <;> omega),
      getD_set_ne _ _ _ _ (by rcases hbits with hb | hb <;> omega),
      show bits - 1 - j = 7 - j % 8 from by rcases hbits with hb | hb <;> omega]
    exact stored3_flip_lo _ _ _ _ hb2 hb1 (by omega)

theorem set_getD_self (l : List Nat) (i : Nat) (h : i < l.length) :
    l.set i (l.getD i 0) = l := by
  apply List.ext_getElem?
  intro n
  by_cases hn : n = i
  · subst hn
    rw [List.getElem?_set_self h, List.getD_eq_getElem?_getD, List.getElem?_eq_getElem h]
    rfl
  · rw [List.getElem?_set_ne (fun hh => hn hh.symm)]

theorem flipBit_flipBit (msg : List Nat) (k : Nat) (h : k / 8 < msg.length) :
    flipBit (flipBit msg k) k = msg := by
  unfold flipBit
  rw [getD_set_self _ _ _ h, List.set_set, Nat.xor_assoc, Nat.xor_self, Nat.xor_zero]
  exact set_getD_self msg _ h

theorem xor_cancel_left (a x y : Nat) (h : a ^^^ x = a ^^^ y) : x = y := by
  have h2 := congrArg (fun t => a ^^^ t) h
  simpa only [← Nat.xor_assoc, Nat.xor_self, Nat.zero_xor] using h2

theorem eq_of_xor_eq_zero (a b : Nat) (h : a ^^^ b = 0) : a = b := by
  have h2 := congrArg (fun t => t ^^^ b) h
  simpa only [Nat.xor_assoc, Nat.xor_self, Nat.xor_zero, Nat.zero_xor] using h2

theorem findSome?_eq_none_of_all {β : Type} (l : List Nat) (f : Nat → Option β)
    (h : ∀ j ∈ l, f j = none) : l.findSome? f = none := by
  induction l with
  | nil => rfl
  | cons x l ih =>
    rw [List.findSome?_cons, h x (List.mem_cons_self x l)]
    exact ih fun j hj => h j (List.mem_cons_of_mem x hj)

theorem findSome?_eq_unique {β : Type} (l : List Nat) (f : Nat → Option β) (k : Nat)
    (hmem : k ∈ l) (hnone : ∀ j ∈ l, j ≠ k → f j = none) :
    l.findSome? f = f k := by
  induction l with
  | nil => cases hmem
  | cons x l ih =>
    rw [List.findSome?_cons]
    by_cases hx : x = k
    · subst hx
      cases hfx : f x with
      | some v => rfl
      | none =>
        rw [findSome?_eq_none_of_all l f fun j hj => by
          by_cases hjx : j = x
          · rw [hjx, hfx]
          · exact hnone j (List.mem_cons_of_mem x hj) hjx]
    · rw [hnone x (List.mem_cons_self x l) hx]
      rcases List.mem_cons.mp hmem with h | h
      · exact absurd h.symm hx
      · exact ih h fun j hj => hnone j (List.mem_cons_of_mem x hj)

theorem accept_iff_eq (msg : List Nat) (bits k j : Nat)
    (hbits : bits = 56 ∨ bits = 112)
    (hlen : msg.length = bits / 8)
    (hbytes : ∀ b ∈ msg, b < 256)
    (hvalid : modesChecksum msg bits = storedCRC msg bits)
    (hk : k < bits) (hj : j < bits) :
    (storedCRC (flipBit (flipBit msg k) j) bits =
       modesChecksum (flipBit (flipBit msg k) j) bits) ↔ j = k := by
  have hoffb : (bits = 56 ∧ (if bits = 112 then 0 else 112 - 56) = 56) ∨
      (bits = 112 ∧ (if bits = 112 then 0 else 112 - 56) = 0) := by
    rcases hbits with h | h <;> subst h <;> simp
  have hkdiv : k / 8 < msg.length := by rcases hbits with h | h <;> omega
  have hGlen : (flipBit msg k).length = bits / 8 := by rw [flipBit_length]; exact hlen
  have hGbytes : ∀ b ∈ flipBit msg k, b < 256 :=
    flipBit_bytes msg k hbytes (Nat.mod_lt k (by decide))
  have hCk : modesChecksum (flipBit msg k) bits =
      modesChecksum msg bits ^^^ tableAt (k + (if bits = 112 then 0 else 112 - 56)) :=
    modesChecksum_flipBit msg bits k hbits hlen hk
  have hCj : modesChecksum (flipBit (flipBit msg k) j) bits =
      modesChecksum (flipBit msg k) bits ^^^
        tableAt (j + (if bits = 112 then 0 else 112 - 56)) :=
    modesChecksum_flipBit (flipBit msg k) bits j hbits hGlen hj
  constructor
  · intro hacc
    by_contra hne
    rw [hCj, hCk] at hacc
    by_cases hklow : k < bits - 24 <;> by_cases hjlow : j < bits - 24
    · -- both flips in the data area: table entries must collide
      rw [storedCRC_flipBit_low _ bits j hbits hjlow,
        storedCRC_flipBit_low msg bits k hbits hklow, ← hvalid, Nat.xor_assoc] at hacc
      have h0 : tableAt (k + (if bits = 112 then 0 else 112 - 56)) ^^^
          tableAt (j + (if bits = 112 then 0 else 112 - 56)) = 0 :=
        (xor_cancel_left (modesChecksum msg bits) 0 _
          (by rw [Nat.xor_zero]; exact hacc)).symm
      have heq := eq_of_xor_eq_zero _ _ h0
      have hidx := tableAt_distinct _
        (by rcases hoffb with ⟨h1, h2⟩ | ⟨h1, h2⟩ <;> rw [h2] <;> omega) _
        (by rcases hoffb with ⟨h1, h2⟩ | ⟨h1, h2⟩ <;> rw [h2] <;> omega) heq
      exact hne (by omega)
    · -- k in the data area, j in the CRC area: a table entry equals a power of two
      have hTj : tableAt (j + (if bits = 112 then 0 else 112 - 56)) = 0 :=
        tableAt_zero_of_ge _
          (by rcases hoffb with ⟨h1, h2⟩ | ⟨h1, h2⟩ <;> rw [h2] <;> omega)
          (by rcases hoffb with ⟨h1, h2⟩ | ⟨h1, h2⟩ <;> rw [h2] <;> omega)
      rw [storedCRC_flipBit_high _ bits j hbits hGlen hGbytes (by omega) hj,
        storedCRC_flipBit_low msg bits k hbits hklow, ← hvalid, hTj, Nat.xor_zero] at hacc
      exact tableAt_ne_two_pow _
        (by rcases hoffb with ⟨h1, h2⟩ | ⟨h1, h2⟩ <;> rw [h2] <;> omega) _
        (by omega) (xor_cancel_left _ _ _ hacc).symm
    · -- k in the CRC area, j in the data area: symmetric collision
      have hTk : tableAt (k + (if bits = 112 then 0 else 112 - 56)) = 0 :=
        tableAt_zero_of_ge _
          (by rcases hoffb with ⟨h1, h2⟩ | ⟨h1, h2⟩ <;> rw [h2] <;> omega)
          (by rcases hoffb with ⟨h1, h2⟩ | ⟨h1, h2⟩ <;> rw [h2] <;> omega)
      rw [storedCRC_flipBit_low _ bits j hbits hjlow,
        storedCRC_flipBit_high msg bits k hbits hlen hbytes (by omega) hk,
        ← hvalid, hTk, Nat.xor_zero] at hacc
      have hcol := xor_cancel_left _ _ _ hacc
      exact tableAt_ne_two_pow (j + (if bits = 112 then 0 else 112 - 56))
        (by rcases hoffb with ⟨h1, h2⟩ | ⟨h1, h2⟩ <;> rw [h2] <;> omega) (bits - 1 - k)
        (by omega) hcol.symm
    · -- both flips in the CRC area: two distinct powers of two collide
      have hTj : tableAt (j + (if bits = 112 then 0 else 112 - 56)) = 0 :=
        tableAt_zero_of_ge _
          (by rcases hoffb with ⟨h1, h2⟩ | ⟨h1, h2⟩ <;> rw [h2] <;> omega)
          (by rcases hoffb with ⟨h1, h2⟩ | ⟨h1, h2⟩ <;> rw [h2] <;> omega)
      have hTk : tableAt (k + (if bits = 112 then 0 else 112 - 56)) = 0 :=
        tableAt_zero_of_ge _
          (by rcases hoffb with ⟨h1, h2⟩ | ⟨h1, h2⟩ <;> rw [h2] <;> omega)
          (by rcases hoffb with ⟨h1, h2⟩ | ⟨h1, h2⟩ <;> rw [h2] <;> omega)
      rw [storedCRC_flipBit_high _ bits j hbits hGlen hGbytes (by omega) hj,
        storedCRC_flipBit_high msg bits k hbits hlen hbytes (by omega) hk,
        ← hvalid, hTj, hTk, Nat.xor_zero, Nat.xor_zero, Nat.xor_assoc] at hacc
      have h0 : (1 : Nat) <<< (bits - 1 - k) ^^^ 1 <<< (bits - 1 - j) = 0 :=
        (xor_cancel_left (modesChecksum msg bits) 0 _
          (by rw [Nat.xor_zero]; exact hacc.symm)).symm
      have heq := eq_of_xor_eq_zero _ _ h0
      rw [Nat.one_shiftLeft, Nat.one_shiftLeft] at heq
      have := Nat.pow_right_injective (by decide : 2 ≤ 2) heq
      exact hne (by omega)
  · intro hjk
    subst hjk
    rw [flipBit_flipBit msg j hkdiv]
    exact hvalid.symm

/-- Claim C3: for every valid DF11 (56-bit) or DF17 (112-bit) frame whose
computed CRC equals its trailing 24-bit CRC, flipping exactly one bit `k`
and applying `fixSingleBitErrors` to the corrupted frame returns exactly
`k` and restores the original bytes, so the repaired frame's computed CRC
again equals the CRC stored in its trailing three bytes (the `hvalid`
equation, re-established for the returned buffer). -/
theorem C3_single_bit_repair (msg : List Nat) (bits k : Nat)
    (hdf : ((msg.getD 0 0) >>> 3 = 11 ∧ bits = 56) ∨
           ((msg.getD 0 0) >>> 3 = 17 ∧ bits = 112))
    (hlen : msg.length = bits / 8)
    (hbytes : ∀ b ∈ msg, b < 256)
    (hvalid : modesChecksum msg bits = storedCRC msg bits)
    (hk : k < bits) :
    fixSingleBitErrors (flipBit msg k) bits = some (k, msg) ∧
    modesChecksum msg bits = storedCRC msg bits := by
  have hbits : bits = 56 ∨ bits = 112 := by
    rcases hdf with ⟨-, h⟩ | ⟨-, h⟩
    · exact Or.inl h
    · exact Or.inr h
  have hGlen : (flipBit msg k).length = bits / 8 := by rw [flipBit_length]; exact hlen
  have hkdiv : k / 8 < msg.length := by rcases hbits with h | h <;> omega
  refine ⟨?_, hvalid⟩
  unfold fixSingleBitErrors
  rw [List.take_of_length_le (le_of_eq hGlen),
    List.drop_eq_nil_of_le (le_of_eq hGlen)]
  rw [findSome?_eq_unique _ _ k (List.mem_range.mpr hk) fun j hj hne => by
    dsimp only
    rw [if_neg fun hacc =>
      hne ((accept_iff_eq msg bits k j hbits hlen hbytes hvalid hk
        (List.mem_range.mp hj)).mp hacc)]]
  dsimp only
  rw [if_pos ((accept_iff_eq msg bits k k hbits hlen hbytes hvalid hk hk).mpr rfl),
    flipBit_flipBit msg k hkdiv, List.append_nil]

/-- The DF17 identification frame `*8D4840D6202CC371C32CE0576098;`, whose
CRC is valid. -/
def klmFrame : List Nat :=
  [0x8D, 0x48, 0x40, 0xD6, 0x20, 0x2C, 0xC3, 0x71, 0xC3, 0x2C, 0xE0, 0x57, 0x60, 0x98]

/-- Witness for C3: flipping bit 37 of the valid DF17 frame `klmFrame` is
repaired by `fixSingleBitErrors`, which returns 37 and the original
bytes. -/
theorem C3_single_bit_repair_witness :
    fixSingleBitErrors (flipBit klmFrame 37) 112 = some (37, klmFrame) ∧
    modesChecksum klmFrame 112 = storedCRC klmFrame 112 :=
  C3_single_bit_repair klmFrame 112 37 (Or.inr ⟨by decide, rfl⟩) (by decide) (by decide)
    (by decide) (by decide)

/-- Witness for C2: the valid DF17 frame `klmFrame` instantiates the cache
admission characterization at its own ICAO address `0x4840D6`. -/
theorem C2_cache_admission_witness :
    ((decodeModesMessage defaultConfig emptyIcaoCache 0 klmFrame).2 = some 0x4840D6 ↔
      ((((decodeModesMessage defaultConfig emptyIcaoCache 0 klmFrame).1).msgtype = 11 ∨
        ((decodeModesMessage defaultConfig emptyIcaoCache 0 klmFrame).1).msgtype = 17) ∧
       ((decodeModesMessage defaultConfig emptyIcaoCache 0 klmFrame).1).crcok = true ∧
       ((decodeModesMessage defaultConfig emptyIcaoCache 0 klmFrame).1).errorbit = -1 ∧
       (0x4840D6 : Nat) =
         ((((decodeModesMessage defaultConfig emptyIcaoCache 0 klmFrame).1).aa1) <<< 16) |||
         ((((decodeModesMessage defaultConfig emptyIcaoCache 0 klmFrame).1).aa2) <<< 8) |||
         (((decodeModesMessage defaultConfig emptyIcaoCache 0 klmFrame).1).aa3))) :=
  C2_cache_admission defaultConfig emptyIcaoCache 0 klmFrame 0x4840D6

/-- Witness for C9: the DF17 frame `klmFrame` has a 112-bit length exactly
because its downlink format is 17. -/
theorem C9_bit_length_witness :
    (((decodeModesMessage defaultConfig emptyIcaoCache 0 klmFrame).1).msgbits = 112 ↔
      ((klmFrame.getD 0 0) >>> 3 = 16 ∨ (klmFrame.getD 0 0) >>> 3 = 17 ∨
       (klmFrame.getD 0 0) >>> 3 = 19 ∨ (klmFrame.getD 0 0) >>> 3 = 20 ∨
       (klmFrame.getD 0 0) >>> 3 = 21)) ∧
    (¬((klmFrame.getD 0 0) >>> 3 = 16 ∨ (klmFrame.getD 0 0) >>> 3 = 17 ∨
       (klmFrame.getD 0 0) >>> 3 = 19 ∨ (klmFrame.getD 0 0) >>> 3 = 20 ∨
       (klmFrame.getD 0 0) >>> 3 = 21) →
      ((decodeModesMessage defaultConfig emptyIcaoCache 0 klmFrame).1).msgbits = 56) :=
  C9_bit_length defaultConfig emptyIcaoCache 0 klmFrame
